import Mathlib

/-!
# VSphereDistributedNetwork schema (api/v1alpha1)

A shallow embedding of `api/v1alpha1/vspheredistributednetwork_types.go`.

The source file is a set of Go struct declarations.  Its behaviour lives in
three places, each embedded below:

* the `json:"..."` field tags, which drive Go's `encoding/json` marshaller and
  unmarshaller (wire name, `omitempty`);
* the `+kubebuilder:` markers, from which the structural schema used at
  admission is generated (`Minimum`, `Maximum`, `Enum`, `default`, and the
  required list: a field is required unless it is tagged `omitempty` or marked
  `+optional`);
* `init`, which hands the two root types to `RegisterTypeWithScheme`.

The wire form is modelled as a JSON document tree, strings are Unicode text
and JSON numbers are integers (every numeric field of the schema is `int32`).
-/

namespace NetOperator

/-! ## Wire form -/

/-- A JSON document. -/
inductive JSON where
  | null : JSON
  | bool (b : Bool) : JSON
  | num (n : Int) : JSON
  | str (s : String) : JSON
  | arr (xs : List JSON) : JSON
  | obj (kvs : List (String × JSON)) : JSON

namespace JSON

/-- Member `k` of an object body read as a map from names to values, the way
the admission layer reads it: when a name is repeated the last occurrence is
the one that stays. -/
def lookup (k : String) : List (String × JSON) → Option JSON
  | [] => none
  | (k', v) :: rest =>
    match lookup k rest with
    | some w => some w
    | none => if k' = k then some v else none

/-- Whether the object body carries the key `k` at all, whatever its value. -/
def hasKey (k : String) (kvs : List (String × JSON)) : Bool :=
  (lookup k kvs).isSome

/-- Whether a document is the literal `null`. -/
def isNull : JSON → Bool
  | null => true
  | _ => false

/-- Member `k` as the admission schema sees it: a member whose value is `null`
is treated like a missing member (the admission layer drops `null` for fields
not declared nullable). -/
def field (k : String) (kvs : List (String × JSON)) : Option JSON :=
  match lookup k kvs with
  | some v => if v.isNull then none else some v
  | none => none

/-- Member `k` of a document, `none` when the document is not an object or
has no such member. -/
def get (k : String) : JSON → Option JSON
  | obj kvs => lookup k kvs
  | _ => none

/-- Whether a document is an object carrying the key `k`. -/
def has (k : String) (j : JSON) : Bool :=
  (get k j).isSome

end JSON

/-! ## Go value kinds -/

/-- Go's `int32`. -/
abbrev I32 : Type := { n : Int // -2147483648 ≤ n ∧ n ≤ 2147483647 }

/-- The zero `int32`. -/
def I32.zero : I32 := ⟨0, by decide⟩

/-- A Go slice: `none` is the nil slice, `some []` an allocated empty one. -/
abbrev Slice (α : Type) : Type := Option (List α)

/-- Go's `len` on a slice. -/
def Slice.len {α : Type} : Slice α → Nat
  | none => 0
  | some xs => xs.length

/-- The elements of a slice. -/
def Slice.elems {α : Type} : Slice α → List α
  | none => []
  | some xs => xs

/-- A struct member emitted unconditionally (tag without `omitempty`). -/
def always (k : String) (v : JSON) : List (String × JSON) := [(k, v)]

/-- A struct member tagged `omitempty`: left out when the Go value is empty.
`encoding/json` counts as empty: `false`, `0`, a nil pointer, and a string or
slice of length zero.  A struct value is never empty. -/
def omitempty (isEmpty : Bool) (k : String) (v : JSON) : List (String × JSON) :=
  if isEmpty then [] else [(k, v)]

/-- Emptiness of a Go string for `omitempty`. -/
def emptyStr (s : String) : Bool := s.length == 0

/-- Emptiness of a Go bool for `omitempty`. -/
def emptyBool (b : Bool) : Bool := !b

/-- Emptiness of a Go `int32` for `omitempty`. -/
def emptyI32 (n : I32) : Bool := n.val == 0

/-- Emptiness of a Go slice for `omitempty`. -/
def emptySlice {α : Type} (s : Slice α) : Bool := s.len == 0

/-- Emptiness of a Go pointer for `omitempty`. -/
def emptyPtr {α : Type} (p : Option α) : Bool := p.isNone

/-- Emptiness of a Go struct value for `omitempty`: a struct is never empty,
so the option has no effect on a struct-typed field. -/
def emptyStruct : Bool := false

/-- Marshal a string. -/
def encStr (s : String) : JSON := JSON.str s

/-- Marshal a bool. -/
def encBool (b : Bool) : JSON := JSON.bool b

/-- Marshal an `int32`. -/
def encI32 (n : I32) : JSON := JSON.num n.val

/-- Marshal a slice: a nil slice is `null`, any other an array. -/
def encSlice {α : Type} (enc : α → JSON) : Slice α → JSON
  | none => JSON.null
  | some xs => JSON.arr (xs.map enc)

/-- Marshal a pointer: nil is `null`, otherwise the pointee. -/
def encPtr {α : Type} (enc : α → JSON) : Option α → JSON
  | none => JSON.null
  | some a => enc a

/-- Unmarshal a string document. -/
def decStr : JSON → Option String
  | JSON.null => some ""
  | JSON.str s => some s
  | _ => none

/-- Unmarshal a bool document. -/
def decBool : JSON → Option Bool
  | JSON.null => some false
  | JSON.bool b => some b
  | _ => none

/-- Unmarshal an `int32` document; a number outside the `int32` range is an
error. -/
def decI32 : JSON → Option I32
  | JSON.null => some I32.zero
  | JSON.num n =>
    if h : -2147483648 ≤ n ∧ n ≤ 2147483647 then some ⟨n, h⟩ else none
  | _ => none

/-! ## Unmarshalling helpers

`encoding/json` unmarshals an object into a struct member by member, in
document order.  Each member name selects a field: the field whose name equals
it, or else the first field whose name equals it under case folding.  A member
that selects no field is skipped.  The value is then stored into the field as
it stands: `null` leaves a scalar or a struct untouched and resets a slice or
a pointer to nil; an object is unmarshalled into the struct already there. -/

/-- Case folding of one character of a member name.  Only ASCII letters and
the two characters that fold onto ASCII letters (U+017F onto `S`, U+212A onto
`K`) can take part in a match with the ASCII field names of this schema. -/
def foldChar (c : Char) : Char :=
  if c.toNat = 0x17F then 'S' else if c.toNat = 0x212A then 'K' else c.toUpper

/-- Case folding of a member name. -/
def foldName (s : String) : String := String.mk (s.data.map foldChar)

/-- The field of a struct that a member name selects, among the wire names
`names` of the struct in declaration order. -/
def fieldFor (names : List String) (k : String) : Option String :=
  if k ∈ names then some k else names.find? (fun n => foldName n == foldName k)

/-- Store a document into a string, bool or integer field: `null` keeps the
value the field has. -/
def intoScalar {α : Type} (dec : JSON → Option α) (j : JSON) (old : α) : Option α :=
  if j.isNull then some old else dec j

/-- Unmarshal the elements of an array in order, each into the element already
at its index when there is one and into a zero element otherwise; the first
element that fails fails the whole array. -/
def decElems {α : Type} (into : JSON → α → Option α) (zero : α) :
    List JSON → List α → Option (List α)
  | [], _ => some []
  | x :: xs, olds =>
    match into x (olds.headD zero), decElems into zero xs olds.tail with
    | some a, some as => some (a :: as)
    | _, _ => none

/-- Store a document into a slice field: `null` resets the slice to nil, an
array is unmarshalled element by element. -/
def intoSlice {α : Type} (into : JSON → α → Option α) (zero : α) (j : JSON)
    (old : Slice α) : Option (Slice α) :=
  match j with
  | JSON.null => some none
  | JSON.arr xs => (decElems into zero xs old.elems).map some
  | _ => none

/-- Store a document into a pointer field: `null` resets the pointer to nil;
otherwise the pointee is allocated if need be and unmarshalled into. -/
def intoPtr {α : Type} (into : JSON → α → Option α) (zero : α) (j : JSON)
    (old : Option α) : Option (Option α) :=
  if j.isNull then some none else (into j (old.getD zero)).map some

/-- Apply the members of an object to a struct in document order, `set`
storing one member. -/
def applyMembers {σ : Type} (set : String → JSON → σ → Option σ) :
    List (String × JSON) → σ → Option σ
  | [], s => some s
  | (k, j) :: rest, s =>
    match set k j s with
    | some s' => applyMembers set rest s'
    | none => none

/-- Store a document into a struct: `null` leaves it untouched, an object is
applied member by member, anything else is an error. -/
def intoStruct {σ : Type} (set : String → JSON → σ → Option σ) (j : JSON) (old : σ) :
    Option σ :=
  match j with
  | JSON.null => some old
  | JSON.obj kvs => applyMembers set kvs old
  | _ => none

/-! ## Types declared outside the file

`metav1.Time`, `metav1.ObjectMeta` and `IPPoolReference` are declared in other
packages or files.  Each is taken as a type parameter together with its JSON
behaviour. -/

/-- The JSON behaviour of a type declared elsewhere: its zero value, its
marshaller, its unmarshaller (storing a document into an existing value) and
the schema its documents must satisfy. -/
structure Codec (α : Type) where
  zero : α
  enc : α → JSON
  dec : JSON → α → Option α
  valid : JSON → Bool

/-- Unmarshalling into a fresh value. -/
def Codec.decode {α : Type} (c : Codec α) (j : JSON) : Option α :=
  c.dec j c.zero

/-- The value `a` is preserved by its own wire form: unmarshalling what the
marshaller wrote for `a` gives `a` back. -/
def Codec.RoundTrips {α : Type} (c : Codec α) (a : α) : Prop :=
  c.decode (c.enc a) = some a

/-! ## Enumerations -/

/-- `VSphereDistributedNetworkConditionType`, a Go string type. -/
abbrev VSphereDistributedNetworkConditionType : Type := String

def VSphereDistributedNetworkPortGroupFailure : VSphereDistributedNetworkConditionType :=
  "PortGroupFailure"
def VSphereDistributedNetworkIPPoolInvalid : VSphereDistributedNetworkConditionType :=
  "IPPoolInvalid"
def VsphereDistributedNetworkIPPoolPressure : VSphereDistributedNetworkConditionType :=
  "IPPoolPressure"

/-- `IPAssignmentModeType`, a Go string type. -/
abbrev IPAssignmentModeType : Type := String

def IPAssignmentModeDHCP : IPAssignmentModeType := "dhcp"
def IPAssignmentModeStaticPool : IPAssignmentModeType := "staticpool"
def IPAssignmentModeNone : IPAssignmentModeType := "none"

/-- `VLANType`, a Go string type. -/
abbrev VLANType : Type := String

def VLANTypeStandard : VLANType := "standard"
def VLANTypeTrunk : VLANType := "trunk"
def VLANTypePrivate : VLANType := "private"

/-- `MacLimitPolicyType`, a Go string type. -/
abbrev MacLimitPolicyType : Type := String

def MacLimitPolicyAllow : MacLimitPolicyType := "allow"
def MacLimitPolicyDrop : MacLimitPolicyType := "drop"

/-! ## Structs -/

/-- `VSphereDistributedNetworkCondition`; `Status` is a `corev1.ConditionStatus`
(a Go string type), `LastTransitionTime` a `metav1.Time`. -/
structure VSphereDistributedNetworkCondition (T : Type) where
  Type_ : VSphereDistributedNetworkConditionType
  Status : String
  Reason : String
  Message : String
  LastTransitionTime : T
  deriving DecidableEq

/-- `VSphereDistributedNetworkSpec`. -/
structure VSphereDistributedNetworkSpec (P : Type) where
  PortGroupID : String
  IPAssignmentMode : IPAssignmentModeType
  IPPools : Slice P
  Gateway : String
  SubnetMask : String
  deriving DecidableEq

/-- `VLANTrunkRange`. -/
structure VLANTrunkRange where
  Start : I32
  End : I32
  deriving DecidableEq

/-- `VlanSpec`. -/
structure VlanSpec where
  Type_ : VLANType
  VlanID : I32
  TrunkRange : Slice VLANTrunkRange
  PrivateVlanID : I32
  deriving DecidableEq

/-- `MacLearningPolicy`. -/
structure MacLearningPolicy where
  Enabled : Bool
  AllowUnicastFlooding : Bool
  Limit : I32
  LimitPolicy : MacLimitPolicyType
  deriving DecidableEq

/-- `MacManagementPolicy`. -/
structure MacManagementPolicy where
  AllowPromiscuous : Bool
  MacChanges : Bool
  ForgedTransmits : Bool
  MacLearningPolicy : MacLearningPolicy
  deriving DecidableEq

/-- `VSphereDistributedPortConfig`. -/
structure VSphereDistributedPortConfig where
  Vlan : VlanSpec
  MacManagementPolicy : MacManagementPolicy
  deriving DecidableEq

/-- `VSphereDistributedNetworkStatus`; `DefaultPortConfig` is a pointer, `none`
being nil. -/
structure VSphereDistributedNetworkStatus (T : Type) where
  Conditions : Slice (VSphereDistributedNetworkCondition T)
  DefaultPortConfig : Option VSphereDistributedPortConfig
  deriving DecidableEq

/-- `metav1.TypeMeta`, embedded inline in the root types. -/
structure TypeMeta where
  Kind : String
  APIVersion : String
  deriving DecidableEq

/-- `VSphereDistributedNetwork`. -/
structure VSphereDistributedNetwork (M T P : Type) where
  TypeMeta : TypeMeta
  ObjectMeta : M
  Spec : VSphereDistributedNetworkSpec P
  Status : VSphereDistributedNetworkStatus T
  deriving DecidableEq

/-! ## Zero values -/

def VLANTrunkRange.zero : VLANTrunkRange := ⟨I32.zero, I32.zero⟩

def VlanSpec.zero : VlanSpec := ⟨"", I32.zero, none, I32.zero⟩

def MacLearningPolicy.zero : MacLearningPolicy := ⟨false, false, I32.zero, ""⟩

def MacManagementPolicy.zero : MacManagementPolicy :=
  ⟨false, false, false, MacLearningPolicy.zero⟩

def VSphereDistributedPortConfig.zero : VSphereDistributedPortConfig :=
  ⟨VlanSpec.zero, MacManagementPolicy.zero⟩

def VSphereDistributedNetworkCondition.zero {T : Type} (cT : Codec T) :
    VSphereDistributedNetworkCondition T :=
  ⟨"", "", "", "", cT.zero⟩

def VSphereDistributedNetworkSpec.zero {P : Type} : VSphereDistributedNetworkSpec P :=
  ⟨"", "", none, "", ""⟩

def VSphereDistributedNetworkStatus.zero {T : Type} : VSphereDistributedNetworkStatus T :=
  ⟨none, none⟩

/-! ## Equality up to the omit-if-empty rules

A slice-typed field tagged `omitempty` is left out of the wire form when its
length is zero, so an allocated empty slice comes back as the nil slice.  No
other field changes through a round trip. -/

/-- What an `omitempty` slice field holds after a round trip. -/
def Slice.omitted {α : Type} (s : Slice α) : Slice α :=
  if s.len = 0 then none else s

/-- A `VlanSpec` after the omit-if-empty rules. -/
def VlanSpec.canon (v : VlanSpec) : VlanSpec :=
  { v with TrunkRange := v.TrunkRange.omitted }

/-- A port configuration after the omit-if-empty rules. -/
def VSphereDistributedPortConfig.canon (c : VSphereDistributedPortConfig) :
    VSphereDistributedPortConfig :=
  { c with Vlan := c.Vlan.canon }

/-- A status after the omit-if-empty rules. -/
def VSphereDistributedNetworkStatus.canon {T : Type} (s : VSphereDistributedNetworkStatus T) :
    VSphereDistributedNetworkStatus T :=
  { Conditions := s.Conditions.omitted
    DefaultPortConfig := s.DefaultPortConfig.map VSphereDistributedPortConfig.canon }

/-- A resource after the omit-if-empty rules. -/
def VSphereDistributedNetwork.canon {M T P : Type} (x : VSphereDistributedNetwork M T P) :
    VSphereDistributedNetwork M T P :=
  { x with Status := x.Status.canon }

/-! ## Marshalling, field by field from the `json` tags -/

/-- Marshal a `VLANTrunkRange`: `start`, `end`. -/
def encodeVLANTrunkRange (r : VLANTrunkRange) : JSON :=
  JSON.obj (always "start" (encI32 r.Start) ++ always "end" (encI32 r.End))

/-- Marshal a `VlanSpec`: `type`, `vlanID,omitempty`, `trunkRange,omitempty`,
`privateVlanID,omitempty`. -/
def encodeVlanSpec (v : VlanSpec) : JSON :=
  JSON.obj (always "type" (encStr v.Type_)
    ++ omitempty (emptyI32 v.VlanID) "vlanID" (encI32 v.VlanID)
    ++ omitempty (emptySlice v.TrunkRange) "trunkRange"
        (encSlice encodeVLANTrunkRange v.TrunkRange)
    ++ omitempty (emptyI32 v.PrivateVlanID) "privateVlanID" (encI32 v.PrivateVlanID))

/-- Marshal a `MacLearningPolicy`: `enabled`, `allowUnicastFlooding,omitempty`,
`limit,omitempty`, `limitPolicy,omitempty`. -/
def encodeMacLearningPolicy (p : MacLearningPolicy) : JSON :=
  JSON.obj (always "enabled" (encBool p.Enabled)
    ++ omitempty (emptyBool p.AllowUnicastFlooding) "allowUnicastFlooding"
        (encBool p.AllowUnicastFlooding)
    ++ omitempty (emptyI32 p.Limit) "limit" (encI32 p.Limit)
    ++ omitempty (emptyStr p.LimitPolicy) "limitPolicy" (encStr p.LimitPolicy))

/-- Marshal a `MacManagementPolicy`: `allowPromiscuous,omitempty`,
`macChanges,omitempty`, `forgedTransmits,omitempty`,
`macLearningPolicy,omitempty` (a struct-typed field). -/
def encodeMacManagementPolicy (p : MacManagementPolicy) : JSON :=
  JSON.obj (omitempty (emptyBool p.AllowPromiscuous) "allowPromiscuous"
        (encBool p.AllowPromiscuous)
    ++ omitempty (emptyBool p.MacChanges) "macChanges" (encBool p.MacChanges)
    ++ omitempty (emptyBool p.ForgedTransmits) "forgedTransmits" (encBool p.ForgedTransmits)
    ++ omitempty emptyStruct "macLearningPolicy"
        (encodeMacLearningPolicy p.MacLearningPolicy))

/-- Marshal a `VSphereDistributedPortConfig`: `vlan,omitempty` and
`macManagementPolicy,omitempty`, both struct-typed fields. -/
def encodeVSphereDistributedPortConfig (c : VSphereDistributedPortConfig) : JSON :=
  JSON.obj (omitempty emptyStruct "vlan" (encodeVlanSpec c.Vlan)
    ++ omitempty emptyStruct "macManagementPolicy"
        (encodeMacManagementPolicy c.MacManagementPolicy))

/-- Marshal a `VSphereDistributedNetworkCondition`: `type`, `status`,
`reason,omitempty`, `message,omitempty`, `lastTransitionTime,omitempty`
(`metav1.Time` is a struct). -/
def encodeVSphereDistributedNetworkCondition {T : Type} (cT : Codec T)
    (c : VSphereDistributedNetworkCondition T) : JSON :=
  JSON.obj (always "type" (encStr c.Type_)
    ++ always "status" (encStr c.Status)
    ++ omitempty (emptyStr c.Reason) "reason" (encStr c.Reason)
    ++ omitempty (emptyStr c.Message) "message" (encStr c.Message)
    ++ omitempty emptyStruct "lastTransitionTime" (cT.enc c.LastTransitionTime))

/-- Marshal a `VSphereDistributedNetworkSpec`: `portGroupID`,
`ipAssignmentMode,omitempty`, `ipPools`, `gateway`, `subnetMask`. -/
def encodeVSphereDistributedNetworkSpec {P : Type} (cP : Codec P)
    (s : VSphereDistributedNetworkSpec P) : JSON :=
  JSON.obj (always "portGroupID" (encStr s.PortGroupID)
    ++ omitempty (emptyStr s.IPAssignmentMode) "ipAssignmentMode" (encStr s.IPAssignmentMode)
    ++ always "ipPools" (encSlice cP.enc s.IPPools)
    ++ always "gateway" (encStr s.Gateway)
    ++ always "subnetMask" (encStr s.SubnetMask))

/-- Marshal a `VSphereDistributedNetworkStatus`: `conditions,omitempty`,
`defaultPortConfig,omitempty` (a pointer). -/
def encodeVSphereDistributedNetworkStatus {T : Type} (cT : Codec T)
    (s : VSphereDistributedNetworkStatus T) : JSON :=
  JSON.obj (omitempty (emptySlice s.Conditions) "conditions"
        (encSlice (encodeVSphereDistributedNetworkCondition cT) s.Conditions)
    ++ omitempty (emptyPtr s.DefaultPortConfig) "defaultPortConfig"
        (encPtr encodeVSphereDistributedPortConfig s.DefaultPortConfig))

/-- Marshal a `VSphereDistributedNetwork`: the inline `TypeMeta`
(`kind,omitempty`, `apiVersion,omitempty`), then `metadata,omitempty`,
`spec,omitempty`, `status,omitempty`, all three struct-typed. -/
def encodeVSphereDistributedNetwork {M T P : Type} (cM : Codec M) (cT : Codec T)
    (cP : Codec P) (x : VSphereDistributedNetwork M T P) : JSON :=
  JSON.obj (omitempty (emptyStr x.TypeMeta.Kind) "kind" (encStr x.TypeMeta.Kind)
    ++ omitempty (emptyStr x.TypeMeta.APIVersion) "apiVersion" (encStr x.TypeMeta.APIVersion)
    ++ omitempty emptyStruct "metadata" (cM.enc x.ObjectMeta)
    ++ omitempty emptyStruct "spec" (encodeVSphereDistributedNetworkSpec cP x.Spec)
    ++ omitempty emptyStruct "status" (encodeVSphereDistributedNetworkStatus cT x.Status))

/-! ## Unmarshalling -/

/-- The wire names of `VLANTrunkRange`. -/
def vlanTrunkRangeFields : List String := ["start", "end"]

/-- Store one member into a `VLANTrunkRange`. -/
def setVLANTrunkRangeField (k : String) (j : JSON) (r : VLANTrunkRange) :
    Option VLANTrunkRange :=
  let f := fieldFor vlanTrunkRangeFields k
  if f = some "start" then (intoScalar decI32 j r.Start).map (fun s => { r with Start := s })
  else if f = some "end" then (intoScalar decI32 j r.End).map (fun e => { r with End := e })
  else some r

/-- Unmarshal into an existing `VLANTrunkRange`. -/
def decodeVLANTrunkRangeInto : JSON → VLANTrunkRange → Option VLANTrunkRange :=
  intoStruct setVLANTrunkRangeField

/-- Unmarshal a `VLANTrunkRange` into a fresh value. -/
def decodeVLANTrunkRange (j : JSON) : Option VLANTrunkRange :=
  decodeVLANTrunkRangeInto j VLANTrunkRange.zero

/-- The wire names of `VlanSpec`. -/
def vlanSpecFields : List String := ["type", "vlanID", "trunkRange", "privateVlanID"]

/-- Store one member into a `VlanSpec`. -/
def setVlanSpecField (k : String) (j : JSON) (v : VlanSpec) : Option VlanSpec :=
  let f := fieldFor vlanSpecFields k
  if f = some "type" then (intoScalar decStr j v.Type_).map (fun t => { v with Type_ := t })
  else if f = some "vlanID" then
    (intoScalar decI32 j v.VlanID).map (fun i => { v with VlanID := i })
  else if f = some "trunkRange" then
    (intoSlice decodeVLANTrunkRangeInto VLANTrunkRange.zero j v.TrunkRange).map
      (fun r => { v with TrunkRange := r })
  else if f = some "privateVlanID" then
    (intoScalar decI32 j v.PrivateVlanID).map (fun p => { v with PrivateVlanID := p })
  else some v

/-- Unmarshal into an existing `VlanSpec`. -/
def decodeVlanSpecInto : JSON → VlanSpec → Option VlanSpec :=
  intoStruct setVlanSpecField

/-- Unmarshal a `VlanSpec` into a fresh value. -/
def decodeVlanSpec (j : JSON) : Option VlanSpec :=
  decodeVlanSpecInto j VlanSpec.zero

/-- The wire names of `MacLearningPolicy`. -/
def macLearningPolicyFields : List String :=
  ["enabled", "allowUnicastFlooding", "limit", "limitPolicy"]

/-- Store one member into a `MacLearningPolicy`. -/
def setMacLearningPolicyField (k : String) (j : JSON) (p : MacLearningPolicy) :
    Option MacLearningPolicy :=
  let f := fieldFor macLearningPolicyFields k
  if f = some "enabled" then
    (intoScalar decBool j p.Enabled).map (fun b => { p with Enabled := b })
  else if f = some "allowUnicastFlooding" then
    (intoScalar decBool j p.AllowUnicastFlooding).map
      (fun b => { p with AllowUnicastFlooding := b })
  else if f = some "limit" then (intoScalar decI32 j p.Limit).map (fun l => { p with Limit := l })
  else if f = some "limitPolicy" then
    (intoScalar decStr j p.LimitPolicy).map (fun q => { p with LimitPolicy := q })
  else some p

/-- Unmarshal into an existing `MacLearningPolicy`. -/
def decodeMacLearningPolicyInto : JSON → MacLearningPolicy → Option MacLearningPolicy :=
  intoStruct setMacLearningPolicyField

/-- Unmarshal a `MacLearningPolicy` into a fresh value. -/
def decodeMacLearningPolicy (j : JSON) : Option MacLearningPolicy :=
  decodeMacLearningPolicyInto j MacLearningPolicy.zero

/-- The wire names of `MacManagementPolicy`. -/
def macManagementPolicyFields : List String :=
  ["allowPromiscuous", "macChanges", "forgedTransmits", "macLearningPolicy"]

/-- Store one member into a `MacManagementPolicy`. -/
def setMacManagementPolicyField (k : String) (j : JSON) (p : MacManagementPolicy) :
    Option MacManagementPolicy :=
  let f := fieldFor macManagementPolicyFields k
  if f = some "allowPromiscuous" then
    (intoScalar decBool j p.AllowPromiscuous).map (fun b => { p with AllowPromiscuous := b })
  else if f = some "macChanges" then
    (intoScalar decBool j p.MacChanges).map (fun b => { p with MacChanges := b })
  else if f = some "forgedTransmits" then
    (intoScalar decBool j p.ForgedTransmits).map (fun b => { p with ForgedTransmits := b })
  else if f = some "macLearningPolicy" then
    (decodeMacLearningPolicyInto j p.MacLearningPolicy).map
      (fun l => { p with MacLearningPolicy := l })
  else some p

/-- Unmarshal into an existing `MacManagementPolicy`. -/
def decodeMacManagementPolicyInto : JSON → MacManagementPolicy → Option MacManagementPolicy :=
  intoStruct setMacManagementPolicyField

/-- Unmarshal a `MacManagementPolicy` into a fresh value. -/
def decodeMacManagementPolicy (j : JSON) : Option MacManagementPolicy :=
  decodeMacManagementPolicyInto j MacManagementPolicy.zero

/-- The wire names of `VSphereDistributedPortConfig`. -/
def portConfigFields : List String := ["vlan", "macManagementPolicy"]

/-- Store one member into a `VSphereDistributedPortConfig`. -/
def setPortConfigField (k : String) (j : JSON) (c : VSphereDistributedPortConfig) :
    Option VSphereDistributedPortConfig :=
  let f := fieldFor portConfigFields k
  if f = some "vlan" then (decodeVlanSpecInto j c.Vlan).map (fun v => { c with Vlan := v })
  else if f = some "macManagementPolicy" then
    (decodeMacManagementPolicyInto j c.MacManagementPolicy).map
      (fun m => { c with MacManagementPolicy := m })
  else some c

/-- Unmarshal into an existing `VSphereDistributedPortConfig`. -/
def decodeVSphereDistributedPortConfigInto :
    JSON → VSphereDistributedPortConfig → Option VSphereDistributedPortConfig :=
  intoStruct setPortConfigField

/-- Unmarshal a `VSphereDistributedPortConfig` into a fresh value. -/
def decodeVSphereDistributedPortConfig (j : JSON) : Option VSphereDistributedPortConfig :=
  decodeVSphereDistributedPortConfigInto j VSphereDistributedPortConfig.zero

/-- The wire names of `VSphereDistributedNetworkCondition`. -/
def conditionFields : List String :=
  ["type", "status", "reason", "message", "lastTransitionTime"]

/-- Store one member into a `VSphereDistributedNetworkCondition`. -/
def setConditionField {T : Type} (cT : Codec T) (k : String) (j : JSON)
    (c : VSphereDistributedNetworkCondition T) : Option (VSphereDistributedNetworkCondition T) :=
  let f := fieldFor conditionFields k
  if f = some "type" then (intoScalar decStr j c.Type_).map (fun t => { c with Type_ := t })
  else if f = some "status" then
    (intoScalar decStr j c.Status).map (fun s => { c with Status := s })
  else if f = some "reason" then
    (intoScalar decStr j c.Reason).map (fun r => { c with Reason := r })
  else if f = some "message" then
    (intoScalar decStr j c.Message).map (fun m => { c with Message := m })
  else if f = some "lastTransitionTime" then
    (cT.dec j c.LastTransitionTime).map (fun l => { c with LastTransitionTime := l })
  else some c

/-- Unmarshal into an existing `VSphereDistributedNetworkCondition`. -/
def decodeVSphereDistributedNetworkConditionInto {T : Type} (cT : Codec T) :
    JSON → VSphereDistributedNetworkCondition T →
      Option (VSphereDistributedNetworkCondition T) :=
  intoStruct (setConditionField cT)

/-- Unmarshal a `VSphereDistributedNetworkCondition` into a fresh value. -/
def decodeVSphereDistributedNetworkCondition {T : Type} (cT : Codec T) (j : JSON) :
    Option (VSphereDistributedNetworkCondition T) :=
  decodeVSphereDistributedNetworkConditionInto cT j (VSphereDistributedNetworkCondition.zero cT)

/-- The wire names of `VSphereDistributedNetworkSpec`. -/
def specFields : List String :=
  ["portGroupID", "ipAssignmentMode", "ipPools", "gateway", "subnetMask"]

/-- Store one member into a `VSphereDistributedNetworkSpec`. -/
def setSpecField {P : Type} (cP : Codec P) (k : String) (j : JSON)
    (x : VSphereDistributedNetworkSpec P) : Option (VSphereDistributedNetworkSpec P) :=
  let f := fieldFor specFields k
  if f = some "portGroupID" then
    (intoScalar decStr j x.PortGroupID).map (fun g => { x with PortGroupID := g })
  else if f = some "ipAssignmentMode" then
    (intoScalar decStr j x.IPAssignmentMode).map (fun m => { x with IPAssignmentMode := m })
  else if f = some "ipPools" then
    (intoSlice cP.dec cP.zero j x.IPPools).map (fun p => { x with IPPools := p })
  else if f = some "gateway" then
    (intoScalar decStr j x.Gateway).map (fun w => { x with Gateway := w })
  else if f = some "subnetMask" then
    (intoScalar decStr j x.SubnetMask).map (fun m => { x with SubnetMask := m })
  else some x

/-- Unmarshal into an existing `VSphereDistributedNetworkSpec`. -/
def decodeVSphereDistributedNetworkSpecInto {P : Type} (cP : Codec P) :
    JSON → VSphereDistributedNetworkSpec P → Option (VSphereDistributedNetworkSpec P) :=
  intoStruct (setSpecField cP)

/-- Unmarshal a `VSphereDistributedNetworkSpec` into a fresh value. -/
def decodeVSphereDistributedNetworkSpec {P : Type} (cP : Codec P) (j : JSON) :
    Option (VSphereDistributedNetworkSpec P) :=
  decodeVSphereDistributedNetworkSpecInto cP j VSphereDistributedNetworkSpec.zero

/-- The wire names of `VSphereDistributedNetworkStatus`. -/
def statusFields : List String := ["conditions", "defaultPortConfig"]

/-- Store one member into a `VSphereDistributedNetworkStatus`. -/
def setStatusField {T : Type} (cT : Codec T) (k : String) (j : JSON)
    (x : VSphereDistributedNetworkStatus T) : Option (VSphereDistributedNetworkStatus T) :=
  let f := fieldFor statusFields k
  if f = some "conditions" then
    (intoSlice (decodeVSphereDistributedNetworkConditionInto cT)
      (VSphereDistributedNetworkCondition.zero cT) j x.Conditions).map
      (fun c => { x with Conditions := c })
  else if f = some "defaultPortConfig" then
    (intoPtr decodeVSphereDistributedPortConfigInto VSphereDistributedPortConfig.zero j
      x.DefaultPortConfig).map (fun d => { x with DefaultPortConfig := d })
  else some x

/-- Unmarshal into an existing `VSphereDistributedNetworkStatus`. -/
def decodeVSphereDistributedNetworkStatusInto {T : Type} (cT : Codec T) :
    JSON → VSphereDistributedNetworkStatus T → Option (VSphereDistributedNetworkStatus T) :=
  intoStruct (setStatusField cT)

/-- Unmarshal a `VSphereDistributedNetworkStatus` into a fresh value. -/
def decodeVSphereDistributedNetworkStatus {T : Type} (cT : Codec T) (j : JSON) :
    Option (VSphereDistributedNetworkStatus T) :=
  decodeVSphereDistributedNetworkStatusInto cT j VSphereDistributedNetworkStatus.zero

/-- The wire names of `VSphereDistributedNetwork`; `kind` and `apiVersion` are
promoted from the inline `TypeMeta`. -/
def networkFields : List String := ["kind", "apiVersion", "metadata", "spec", "status"]

/-- Store one member into a `VSphereDistributedNetwork`. -/
def setNetworkField {M T P : Type} (cM : Codec M) (cT : Codec T) (cP : Codec P) (k : String)
    (j : JSON) (x : VSphereDistributedNetwork M T P) :
    Option (VSphereDistributedNetwork M T P) :=
  let f := fieldFor networkFields k
  if f = some "kind" then
    (intoScalar decStr j x.TypeMeta.Kind).map
      (fun s => { x with TypeMeta := { x.TypeMeta with Kind := s } })
  else if f = some "apiVersion" then
    (intoScalar decStr j x.TypeMeta.APIVersion).map
      (fun s => { x with TypeMeta := { x.TypeMeta with APIVersion := s } })
  else if f = some "metadata" then
    (cM.dec j x.ObjectMeta).map (fun m => { x with ObjectMeta := m })
  else if f = some "spec" then
    (decodeVSphereDistributedNetworkSpecInto cP j x.Spec).map (fun s => { x with Spec := s })
  else if f = some "status" then
    (decodeVSphereDistributedNetworkStatusInto cT j x.Status).map
      (fun s => { x with Status := s })
  else some x

/-- The zero `VSphereDistributedNetwork`. -/
def VSphereDistributedNetwork.zero {M T P : Type} (cM : Codec M) :
    VSphereDistributedNetwork M T P :=
  ⟨⟨"", ""⟩, cM.zero, VSphereDistributedNetworkSpec.zero, VSphereDistributedNetworkStatus.zero⟩

/-- Unmarshal a `VSphereDistributedNetwork` into a fresh value. -/
def decodeVSphereDistributedNetwork {M T P : Type} (cM : Codec M) (cT : Codec T)
    (cP : Codec P) (j : JSON) : Option (VSphereDistributedNetwork M T P) :=
  intoStruct (setNetworkField cM cT cP) j (VSphereDistributedNetwork.zero cM)

/-! ## Admission schema, from the `+kubebuilder:` markers

The structural schema generated for a struct lists one property per field.  A
property is required unless the field is tagged `omitempty` or marked
`+optional`; `Minimum`, `Maximum` and `Enum` constrain the value; `default`
fills in a missing member before validation.  Members the schema does not name
are not a validation error. -/

/-- Schema `type: string`. -/
def isString : JSON → Bool
  | JSON.str _ => true
  | _ => false

/-- Schema `type: boolean`. -/
def isBoolean : JSON → Bool
  | JSON.bool _ => true
  | _ => false

/-- Schema `type: integer, format: int32`, with no further bound. -/
def isInt32 : JSON → Bool
  | JSON.num n => decide (-2147483648 ≤ n ∧ n ≤ 2147483647)
  | _ => false

/-- Schema `type: integer` with `Minimum=lo` and `Maximum=hi`. -/
def inRange (lo hi : Int) : JSON → Bool
  | JSON.num n => decide (lo ≤ n ∧ n ≤ hi)
  | _ => false

/-- Schema `type: string` with `Enum=` the listed tokens. -/
def inEnum (tokens : List String) : JSON → Bool
  | JSON.str s => decide (s ∈ tokens)
  | _ => false

/-- Schema `type: array` whose items satisfy `item`. -/
def isArrayOf (item : JSON → Bool) : JSON → Bool
  | JSON.arr xs => xs.all item
  | _ => false

/-- A required property: the member must be present and satisfy `p`. -/
def required (k : String) (p : JSON → Bool) (kvs : List (String × JSON)) : Bool :=
  match JSON.field k kvs with
  | none => false
  | some v => p v

/-- An optional property: the member, when present, must satisfy `p`. -/
def optional (k : String) (p : JSON → Bool) (kvs : List (String × JSON)) : Bool :=
  match JSON.field k kvs with
  | none => true
  | some v => p v

/-- A property with a `default`: a missing member is replaced by `dflt` before
the value is checked. -/
def defaulted (k : String) (dflt : JSON) (p : JSON → Bool)
    (kvs : List (String × JSON)) : Bool :=
  match JSON.field k kvs with
  | none => p dflt
  | some v => p v

/-- The tokens of `+kubebuilder:validation:Enum=standard;trunk;private`. -/
def vlanTypeEnum : List String := ["standard", "trunk", "private"]

/-- The tokens of `+kubebuilder:validation:Enum=allow;drop`. -/
def macLimitPolicyEnum : List String := ["allow", "drop"]

/-- Schema of `VLANTrunkRange`: `start` and `end` required, each with
`Minimum=0`, `Maximum=4094`. -/
def validVLANTrunkRange : JSON → Bool
  | JSON.obj kvs =>
    required "start" (inRange 0 4094) kvs && required "end" (inRange 0 4094) kvs
  | _ => false

/-- Schema of `VlanSpec`: `type` required with its `Enum`; `vlanID` with
`Minimum=0`, `Maximum=4094`, `default=0`; `trunkRange` an optional array of
ranges; `privateVlanID` an optional `int32` without bounds. -/
def validVlanSpec : JSON → Bool
  | JSON.obj kvs =>
    required "type" (inEnum vlanTypeEnum) kvs
      && defaulted "vlanID" (JSON.num 0) (inRange 0 4094) kvs
      && optional "trunkRange" (isArrayOf validVLANTrunkRange) kvs
      && optional "privateVlanID" isInt32 kvs
  | _ => false

/-- Schema of `MacLearningPolicy`: `enabled` and `allowUnicastFlooding` with
`default=false`; `limit` optional with `Minimum=0`, `Maximum=4096`;
`limitPolicy` optional with its `Enum`. -/
def validMacLearningPolicy : JSON → Bool
  | JSON.obj kvs =>
    defaulted "enabled" (JSON.bool false) isBoolean kvs
      && defaulted "allowUnicastFlooding" (JSON.bool false) isBoolean kvs
      && optional "limit" (inRange 0 4096) kvs
      && optional "limitPolicy" (inEnum macLimitPolicyEnum) kvs
  | _ => false

/-- Schema of `MacManagementPolicy`: every property optional,
`allowPromiscuous` with `default=false`. -/
def validMacManagementPolicy : JSON → Bool
  | JSON.obj kvs =>
    defaulted "allowPromiscuous" (JSON.bool false) isBoolean kvs
      && optional "macChanges" isBoolean kvs
      && optional "forgedTransmits" isBoolean kvs
      && optional "macLearningPolicy" validMacLearningPolicy kvs
  | _ => false

/-- Schema of `VSphereDistributedPortConfig`: both properties optional. -/
def validVSphereDistributedPortConfig : JSON → Bool
  | JSON.obj kvs =>
    optional "vlan" validVlanSpec kvs
      && optional "macManagementPolicy" validMacManagementPolicy kvs
  | _ => false

/-- Schema of `VSphereDistributedNetworkCondition`: `type` and `status`
required strings, the rest optional.  No marker constrains `type`. -/
def validVSphereDistributedNetworkCondition {T : Type} (cT : Codec T) : JSON → Bool
  | JSON.obj kvs =>
    required "type" isString kvs && required "status" isString kvs
      && optional "reason" isString kvs && optional "message" isString kvs
      && optional "lastTransitionTime" cT.valid kvs
  | _ => false

/-- Schema of `VSphereDistributedNetworkSpec`: `portGroupID`, `ipPools`,
`gateway` and `subnetMask` required, `ipAssignmentMode` optional.  No marker
constrains `ipAssignmentMode`, and none relates the fields to one another. -/
def validVSphereDistributedNetworkSpec {P : Type} (cP : Codec P) : JSON → Bool
  | JSON.obj kvs =>
    required "portGroupID" isString kvs && optional "ipAssignmentMode" isString kvs
      && required "ipPools" (isArrayOf cP.valid) kvs
      && required "gateway" isString kvs && required "subnetMask" isString kvs
  | _ => false

/-- Schema of `VSphereDistributedNetworkStatus`: both properties optional;
`conditions` is a plain array (no list-type or map-key marker). -/
def validVSphereDistributedNetworkStatus {T : Type} (cT : Codec T) : JSON → Bool
  | JSON.obj kvs =>
    optional "conditions" (isArrayOf (validVSphereDistributedNetworkCondition cT)) kvs
      && optional "defaultPortConfig" validVSphereDistributedPortConfig kvs
  | _ => false

/-! ## Registration -/

/-- A type registry: the (group/version, kind) pairs it knows. -/
abbrev Scheme : Type := List (String × String)

/-- The version of the package, `v1alpha1`. -/
def GroupVersion : String := "v1alpha1"

/-- Whether the registry reports `kind` as a known type of `version`. -/
def Scheme.knows (s : Scheme) (version kind : String) : Bool :=
  decide ((version, kind) ∈ s)

/-- Modelled from the spec: `RegisterTypeWithScheme`, declared in another file
of the package.  It registers the given types with the shared registry under
the declared group/version; what the registry already holds is kept. -/
def RegisterTypeWithScheme (kinds : List String) (s : Scheme) : Scheme :=
  s ++ kinds.map (fun k => (GroupVersion, k))

/-- The package initialiser: registers `VSphereDistributedNetwork` and
`VSphereDistributedNetworkList`. -/
def init (s : Scheme) : Scheme :=
  RegisterTypeWithScheme ["VSphereDistributedNetwork", "VSphereDistributedNetworkList"] s

/-! ## Stand-ins for the outside types

Used to evaluate the parametrised definitions on concrete inputs. -/

/-- Modelled from the spec: `IPPoolReference`, declared in another file of the
package; the spec treats it as an identifier and writes it `{name: "pool-a"}`. -/
structure IPPoolReference where
  Name : String
  deriving DecidableEq

/-- Store one member into an `IPPoolReference`. -/
def setIPPoolReferenceField (k : String) (j : JSON) (r : IPPoolReference) :
    Option IPPoolReference :=
  if fieldFor ["name"] k = some "name" then
    (intoScalar decStr j r.Name).map (fun n => { r with Name := n })
  else some r

/-- JSON behaviour of the stand-in `IPPoolReference`. -/
def ipPoolReferenceCodec : Codec IPPoolReference where
  zero := ⟨""⟩
  enc r := JSON.obj (always "name" (encStr r.Name))
  dec := intoStruct setIPPoolReferenceField
  valid j :=
    match j with
    | JSON.obj kvs => required "name" isString kvs
    | _ => false

/-- A stand-in for `metav1.Time`: an instant as whole seconds plus nanoseconds
counted from the zero instant. -/
structure Time where
  sec : Nat
  nsec : Nat
  deriving DecidableEq

/-- The zero instant. -/
def Time.zero : Time := ⟨0, 0⟩

/-- JSON behaviour of the stand-in `metav1.Time`.  The zero instant is written
`null`; any other instant is written in whole seconds (the RFC 3339 text
without a fraction, held here as the number of seconds), so the nanoseconds
are dropped.  Reading `null` resets the value to the zero instant. -/
def timeCodec : Codec Time where
  zero := Time.zero
  enc t := if t.sec = 0 ∧ t.nsec = 0 then JSON.null else JSON.num t.sec
  dec j _ :=
    match j with
    | JSON.null => some Time.zero
    | JSON.num n => if 0 ≤ n then some ⟨n.toNat, 0⟩ else none
    | _ => none
  valid j :=
    match j with
    | JSON.num n => decide (0 ≤ n)
    | _ => false

/-- A stand-in for `metav1.ObjectMeta`: the object name and the creation
timestamp. -/
structure ObjectMeta where
  Name : String
  CreationTimestamp : Time
  deriving DecidableEq

/-- Store one member into an `ObjectMeta`. -/
def setObjectMetaField (k : String) (j : JSON) (m : ObjectMeta) : Option ObjectMeta :=
  let f := fieldFor ["name", "creationTimestamp"] k
  if f = some "name" then (intoScalar decStr j m.Name).map (fun n => { m with Name := n })
  else if f = some "creationTimestamp" then
    (timeCodec.dec j m.CreationTimestamp).map (fun t => { m with CreationTimestamp := t })
  else some m

/-- JSON behaviour of the stand-in `metav1.ObjectMeta`: `name,omitempty` and
`creationTimestamp,omitempty` (a struct-typed field). -/
def metaCodec : Codec ObjectMeta where
  zero := ⟨"", Time.zero⟩
  enc m := JSON.obj (omitempty (emptyStr m.Name) "name" (encStr m.Name)
    ++ omitempty emptyStruct "creationTimestamp" (timeCodec.enc m.CreationTimestamp))
  dec := intoStruct setObjectMetaField
  valid j :=
    match j with
    | JSON.obj kvs => optional "name" isString kvs
        && optional "creationTimestamp" timeCodec.valid kvs
    | _ => false

/-- The bounds the markers of `VLANTrunkRange` put on a range. -/
def VLANTrunkRange.InBounds (r : VLANTrunkRange) : Prop :=
  (0 ≤ r.Start.val ∧ r.Start.val ≤ 4094) ∧ (0 ≤ r.End.val ∧ r.End.val ≤ 4094)

instance (r : VLANTrunkRange) : Decidable r.InBounds := by
  unfold VLANTrunkRange.InBounds
  infer_instance

/-! ## Sample values -/

/-- An `int32` literal in the VLAN range. -/
def i32 (n : Nat) (h : n ≤ 2147483647) : I32 :=
  ⟨n, by constructor <;> omega⟩

/-- Scenario 3 of the spec: DHCP mode with a gateway set. -/
def dhcpWithGateway : VSphereDistributedNetworkSpec IPPoolReference :=
  { PortGroupID := "dvpg-101", IPAssignmentMode := "dhcp", IPPools := some [],
    Gateway := "10.0.0.1", SubnetMask := "" }

/-- A spec whose mode is none of the three declared tokens. -/
def unknownModeSpec : VSphereDistributedNetworkSpec IPPoolReference :=
  { PortGroupID := "dvpg-102", IPAssignmentMode := "bogus", IPPools := some [],
    Gateway := "", SubnetMask := "" }

/-- A status holding two conditions of the same type. -/
def duplicateConditions : VSphereDistributedNetworkStatus Time :=
  { Conditions := some [⟨"PortGroupFailure", "True", "", "", Time.zero⟩,
      ⟨"PortGroupFailure", "False", "Resolved", "", ⟨7, 0⟩⟩],
    DefaultPortConfig := none }

/-- A `VlanSpec` of type `standard` whose `VlanID` is the default `0`. -/
def standardNoVlan : VlanSpec :=
  { Type_ := "standard", VlanID := I32.zero, TrunkRange := none, PrivateVlanID := I32.zero }

/-- A trunk `VlanSpec` with overlapping ranges (scenario 4 of the spec). -/
def trunkOverlap : VlanSpec :=
  { Type_ := "trunk", VlanID := I32.zero,
    TrunkRange := some [⟨i32 100 (by decide), i32 200 (by decide)⟩,
      ⟨i32 150 (by decide), i32 250 (by decide)⟩],
    PrivateVlanID := I32.zero }

/-- A resource in static-pool mode with a populated status; every timestamp
falls on a whole second. -/
def sampleNetwork : VSphereDistributedNetwork ObjectMeta Time IPPoolReference :=
  { TypeMeta := ⟨"VSphereDistributedNetwork", "v1alpha1"⟩
    ObjectMeta := ⟨"net-a", ⟨1700000000, 0⟩⟩
    Spec := { PortGroupID := "dvpg-100", IPAssignmentMode := "staticpool",
              IPPools := some [⟨"pool-a"⟩], Gateway := "10.0.0.1",
              SubnetMask := "255.255.255.0" }
    Status := { Conditions := some [⟨"IPPoolPressure", "True", "LowFreeIPs", "", ⟨42, 0⟩⟩],
                DefaultPortConfig := some ⟨trunkOverlap, MacManagementPolicy.zero⟩ } }

/-- The same resource with its condition observed half a second later, at
42.5 s. -/
def subSecondNetwork : VSphereDistributedNetwork ObjectMeta Time IPPoolReference :=
  { sampleNetwork with
    Status := { Conditions :=
                  some [⟨"IPPoolPressure", "True", "LowFreeIPs", "", ⟨42, 500000000⟩⟩],
                DefaultPortConfig := some ⟨trunkOverlap, MacManagementPolicy.zero⟩ } }

/-- A port configuration in which only the MAC management policy was
retrieved; `Vlan` is left at its zero value. -/
def macOnlyPortConfig : VSphereDistributedPortConfig :=
  { Vlan := VlanSpec.zero
    MacManagementPolicy := ⟨true, false, false, ⟨true, false, i32 128 (by decide), "drop"⟩⟩ }

/-- Wire form of a `VlanSpec` that carries `vlanID` with the value `0`. -/
def wireVlanIDZero : JSON :=
  JSON.obj [("type", JSON.str "standard"), ("vlanID", JSON.num 0)]

/-- Wire form of a `VlanSpec` from which `vlanID` is missing. -/
def wireVlanIDMissing : JSON :=
  JSON.obj [("type", JSON.str "standard")]


/-! ## Basic facts about the wire helpers -/

theorem emptyStr_eq_true (s : String) : emptyStr s = true ↔ s = "" := by
  unfold emptyStr
  constructor
  · intro h
    have h0 : s.length = 0 := by simpa using h
    apply String.ext
    have h1 : s.data.length = 0 := h0
    simpa using List.length_eq_zero.mp h1
  · intro h
    subst h
    rfl

theorem emptyI32_eq_true (n : I32) : emptyI32 n = true ↔ n = I32.zero := by
  unfold emptyI32 I32.zero
  constructor
  · intro h
    apply Subtype.ext
    simpa using h
  · intro h
    subst h
    rfl

theorem decI32_encI32 (n : I32) : decI32 (encI32 n) = some n := by
  obtain ⟨v, hv⟩ := n
  simp [decI32, encI32, hv]

theorem isNull_encI32 (n : I32) : (encI32 n).isNull = false := rfl

theorem isNull_encStr (s : String) : (encStr s).isNull = false := rfl

theorem isNull_encBool (b : Bool) : (encBool b).isNull = false := rfl

theorem isNull_null : JSON.null.isNull = true := rfl

theorem isNull_arr (xs : List JSON) : (JSON.arr xs).isNull = false := rfl

theorem isNull_obj (kvs : List (String × JSON)) : (JSON.obj kvs).isNull = false := rfl

theorem decStr_encStr (s : String) : decStr (encStr s) = some s := rfl

theorem decBool_encBool (b : Bool) : decBool (encBool b) = some b := rfl

theorem decElems_map {α : Type} (enc : α → JSON) (into : JSON → α → Option α) (zero : α)
    (xs : List α) (h : ∀ a ∈ xs, into (enc a) zero = some a) :
    decElems into zero (xs.map enc) [] = some xs := by
  induction xs with
  | nil => rfl
  | cons a as ih =>
    have ha := h a (List.mem_cons_self a as)
    have hr := ih (fun b hb => h b (List.mem_cons_of_mem a hb))
    simp only [List.map_cons, decElems, List.headD_nil, List.tail_nil, ha, hr]

theorem intoSlice_arr {α : Type} (enc : α → JSON) (into : JSON → α → Option α) (zero : α)
    (xs : List α) (h : ∀ a ∈ xs, into (enc a) zero = some a) :
    intoSlice into zero (JSON.arr (xs.map enc)) none = some (some xs) := by
  simp only [intoSlice, Slice.elems, decElems_map enc into zero xs h, Option.map_some']

/-! ## Which field a wire name selects -/

theorem set_start (j : JSON) (r : VLANTrunkRange) :
    setVLANTrunkRangeField "start" j r =
      (intoScalar decI32 j r.Start).map (fun s => { r with Start := s }) := rfl

theorem set_end (j : JSON) (r : VLANTrunkRange) :
    setVLANTrunkRangeField "end" j r =
      (intoScalar decI32 j r.End).map (fun e => { r with End := e }) := rfl

theorem roundtrip_VLANTrunkRange (r : VLANTrunkRange) :
    decodeVLANTrunkRange (encodeVLANTrunkRange r) = some r := by
  obtain ⟨s, e⟩ := r
  simp only [decodeVLANTrunkRange, decodeVLANTrunkRangeInto, intoStruct, encodeVLANTrunkRange,
    always, List.cons_append, List.nil_append, applyMembers, set_start, set_end, intoScalar,
    isNull_encI32, Bool.false_eq_true, if_false, decI32_encI32, Option.map_some',
    VLANTrunkRange.zero]


theorem set_vlan_type (j : JSON) (v : VlanSpec) :
    setVlanSpecField "type" j v =
      (intoScalar decStr j v.Type_).map (fun t => { v with Type_ := t }) := rfl

theorem set_vlanID (j : JSON) (v : VlanSpec) :
    setVlanSpecField "vlanID" j v =
      (intoScalar decI32 j v.VlanID).map (fun i => { v with VlanID := i }) := rfl

theorem set_trunkRange (j : JSON) (v : VlanSpec) :
    setVlanSpecField "trunkRange" j v =
      (intoSlice decodeVLANTrunkRangeInto VLANTrunkRange.zero j v.TrunkRange).map
        (fun r => { v with TrunkRange := r }) := rfl

theorem set_privateVlanID (j : JSON) (v : VlanSpec) :
    setVlanSpecField "privateVlanID" j v =
      (intoScalar decI32 j v.PrivateVlanID).map (fun p => { v with PrivateVlanID := p }) := rfl

theorem set_enabled (j : JSON) (p : MacLearningPolicy) :
    setMacLearningPolicyField "enabled" j p =
      (intoScalar decBool j p.Enabled).map (fun b => { p with Enabled := b }) := rfl

theorem set_allowUnicastFlooding (j : JSON) (p : MacLearningPolicy) :
    setMacLearningPolicyField "allowUnicastFlooding" j p =
      (intoScalar decBool j p.AllowUnicastFlooding).map
        (fun b => { p with AllowUnicastFlooding := b }) := rfl

theorem set_limit (j : JSON) (p : MacLearningPolicy) :
    setMacLearningPolicyField "limit" j p =
      (intoScalar decI32 j p.Limit).map (fun l => { p with Limit := l }) := rfl

theorem set_limitPolicy (j : JSON) (p : MacLearningPolicy) :
    setMacLearningPolicyField "limitPolicy" j p =
      (intoScalar decStr j p.LimitPolicy).map (fun q => { p with LimitPolicy := q }) := rfl

theorem set_allowPromiscuous (j : JSON) (p : MacManagementPolicy) :
    setMacManagementPolicyField "allowPromiscuous" j p =
      (intoScalar decBool j p.AllowPromiscuous).map
        (fun b => { p with AllowPromiscuous := b }) := rfl

theorem set_macChanges (j : JSON) (p : MacManagementPolicy) :
    setMacManagementPolicyField "macChanges" j p =
      (intoScalar decBool j p.MacChanges).map (fun b => { p with MacChanges := b }) := rfl

theorem set_forgedTransmits (j : JSON) (p : MacManagementPolicy) :
    setMacManagementPolicyField "forgedTransmits" j p =
      (intoScalar decBool j p.ForgedTransmits).map
        (fun b => { p with ForgedTransmits := b }) := rfl

theorem set_macLearningPolicy (j : JSON) (p : MacManagementPolicy) :
    setMacManagementPolicyField "macLearningPolicy" j p =
      (decodeMacLearningPolicyInto j p.MacLearningPolicy).map
        (fun l => { p with MacLearningPolicy := l }) := rfl

theorem set_vlan (j : JSON) (c : VSphereDistributedPortConfig) :
    setPortConfigField "vlan" j c =
      (decodeVlanSpecInto j c.Vlan).map (fun v => { c with Vlan := v }) := rfl

theorem set_macManagementPolicy (j : JSON) (c : VSphereDistributedPortConfig) :
    setPortConfigField "macManagementPolicy" j c =
      (decodeMacManagementPolicyInto j c.MacManagementPolicy).map
        (fun m => { c with MacManagementPolicy := m }) := rfl

theorem set_cond_type {T : Type} (cT : Codec T) (j : JSON)
    (c : VSphereDistributedNetworkCondition T) :
    setConditionField cT "type" j c =
      (intoScalar decStr j c.Type_).map (fun t => { c with Type_ := t }) := rfl

theorem set_cond_status {T : Type} (cT : Codec T) (j : JSON)
    (c : VSphereDistributedNetworkCondition T) :
    setConditionField cT "status" j c =
      (intoScalar decStr j c.Status).map (fun s => { c with Status := s }) := rfl

theorem set_cond_reason {T : Type} (cT : Codec T) (j : JSON)
    (c : VSphereDistributedNetworkCondition T) :
    setConditionField cT "reason" j c =
      (intoScalar decStr j c.Reason).map (fun r => { c with Reason := r }) := rfl

theorem set_cond_message {T : Type} (cT : Codec T) (j : JSON)
    (c : VSphereDistributedNetworkCondition T) :
    setConditionField cT "message" j c =
      (intoScalar decStr j c.Message).map (fun m => { c with Message := m }) := rfl

theorem set_cond_lastTransitionTime {T : Type} (cT : Codec T) (j : JSON)
    (c : VSphereDistributedNetworkCondition T) :
    setConditionField cT "lastTransitionTime" j c =
      (cT.dec j c.LastTransitionTime).map (fun l => { c with LastTransitionTime := l }) := rfl

theorem set_portGroupID {P : Type} (cP : Codec P) (j : JSON)
    (x : VSphereDistributedNetworkSpec P) :
    setSpecField cP "portGroupID" j x =
      (intoScalar decStr j x.PortGroupID).map (fun g => { x with PortGroupID := g }) := rfl

theorem set_ipAssignmentMode {P : Type} (cP : Codec P) (j : JSON)
    (x : VSphereDistributedNetworkSpec P) :
    setSpecField cP "ipAssignmentMode" j x =
      (intoScalar decStr j x.IPAssignmentMode).map
        (fun m => { x with IPAssignmentMode := m }) := rfl

theorem set_ipPools {P : Type} (cP : Codec P) (j : JSON)
    (x : VSphereDistributedNetworkSpec P) :
    setSpecField cP "ipPools" j x =
      (intoSlice cP.dec cP.zero j x.IPPools).map (fun p => { x with IPPools := p }) := rfl

theorem set_gateway {P : Type} (cP : Codec P) (j : JSON)
    (x : VSphereDistributedNetworkSpec P) :
    setSpecField cP "gateway" j x =
      (intoScalar decStr j x.Gateway).map (fun w => { x with Gateway := w }) := rfl

theorem set_subnetMask {P : Type} (cP : Codec P) (j : JSON)
    (x : VSphereDistributedNetworkSpec P) :
    setSpecField cP "subnetMask" j x =
      (intoScalar decStr j x.SubnetMask).map (fun m => { x with SubnetMask := m }) := rfl

theorem set_conditions {T : Type} (cT : Codec T) (j : JSON)
    (x : VSphereDistributedNetworkStatus T) :
    setStatusField cT "conditions" j x =
      (intoSlice (decodeVSphereDistributedNetworkConditionInto cT)
        (VSphereDistributedNetworkCondition.zero cT) j x.Conditions).map
        (fun c => { x with Conditions := c }) := rfl

theorem set_defaultPortConfig {T : Type} (cT : Codec T) (j : JSON)
    (x : VSphereDistributedNetworkStatus T) :
    setStatusField cT "defaultPortConfig" j x =
      (intoPtr decodeVSphereDistributedPortConfigInto VSphereDistributedPortConfig.zero j
        x.DefaultPortConfig).map (fun d => { x with DefaultPortConfig := d }) := rfl

theorem set_kind {M T P : Type} (cM : Codec M) (cT : Codec T) (cP : Codec P) (j : JSON)
    (x : VSphereDistributedNetwork M T P) :
    setNetworkField cM cT cP "kind" j x =
      (intoScalar decStr j x.TypeMeta.Kind).map
        (fun s => { x with TypeMeta := { x.TypeMeta with Kind := s } }) := rfl

theorem set_apiVersion {M T P : Type} (cM : Codec M) (cT : Codec T) (cP : Codec P) (j : JSON)
    (x : VSphereDistributedNetwork M T P) :
    setNetworkField cM cT cP "apiVersion" j x =
      (intoScalar decStr j x.TypeMeta.APIVersion).map
        (fun s => { x with TypeMeta := { x.TypeMeta with APIVersion := s } }) := rfl

theorem set_metadata {M T P : Type} (cM : Codec M) (cT : Codec T) (cP : Codec P) (j : JSON)
    (x : VSphereDistributedNetwork M T P) :
    setNetworkField cM cT cP "metadata" j x =
      (cM.dec j x.ObjectMeta).map (fun m => { x with ObjectMeta := m }) := rfl

theorem set_spec {M T P : Type} (cM : Codec M) (cT : Codec T) (cP : Codec P) (j : JSON)
    (x : VSphereDistributedNetwork M T P) :
    setNetworkField cM cT cP "spec" j x =
      (decodeVSphereDistributedNetworkSpecInto cP j x.Spec).map
        (fun s => { x with Spec := s }) := rfl

theorem set_status {M T P : Type} (cM : Codec M) (cT : Codec T) (cP : Codec P) (j : JSON)
    (x : VSphereDistributedNetwork M T P) :
    setNetworkField cM cT cP "status" j x =
      (decodeVSphereDistributedNetworkStatusInto cT j x.Status).map
        (fun s => { x with Status := s }) := rfl

/-! ## Round trips of the structs -/

theorem roundtrip_VlanSpec (v : VlanSpec) :
    decodeVlanSpec (encodeVlanSpec v) = some v.canon := by
  obtain ⟨t, i, r, p⟩ := v
  have hi := emptyI32_eq_true i
  have hp := emptyI32_eq_true p
  have hl := fun xs => intoSlice_arr encodeVLANTrunkRange decodeVLANTrunkRangeInto
    VLANTrunkRange.zero xs (fun a _ => roundtrip_VLANTrunkRange a)
  cases hi' : emptyI32 i <;> cases hp' : emptyI32 p <;> rcases r with _ | _ | ⟨a, l⟩ <;>
    simp only [encodeVlanSpec, always, omitempty, hi', hp', emptySlice, Slice.len,
      List.length_nil, List.length_cons, beq_self_eq_true, if_true, if_false,
      List.append_nil, List.nil_append, List.cons_append, Bool.false_eq_true,
      Nat.add_one_ne_zero, beq_iff_eq, reduceCtorEq, beq_eq_false_iff_ne, ne_eq,
      not_false_eq_true] <;>
    simp only [decodeVlanSpec, decodeVlanSpecInto, intoStruct, applyMembers, set_vlan_type,
      set_vlanID, set_trunkRange, set_privateVlanID, intoScalar, if_true,
      if_false, isNull_encI32, isNull_encStr, decStr_encStr, decI32_encI32,
      encSlice, hl, Bool.false_eq_true, VlanSpec.canon, Slice.omitted, Slice.len,
      List.length_nil, List.length_cons, Nat.add_one_ne_zero, VlanSpec.zero,
      Option.map_some'] <;>
    simp_all


theorem roundtrip_MacLearningPolicy (p : MacLearningPolicy) :
    decodeMacLearningPolicy (encodeMacLearningPolicy p) = some p := by
  obtain ⟨e, a, l, q⟩ := p
  have hl := emptyI32_eq_true l
  have hq := emptyStr_eq_true q
  cases a <;> cases hl' : emptyI32 l <;> cases hq' : emptyStr q <;>
    simp only [encodeMacLearningPolicy, always, omitempty, hl', hq', emptyBool, Bool.not_true,
      Bool.not_false, if_true, if_false, List.append_nil, List.nil_append, List.cons_append,
      Bool.false_eq_true] <;>
    simp only [decodeMacLearningPolicy, decodeMacLearningPolicyInto, intoStruct, applyMembers,
      set_enabled, set_allowUnicastFlooding, set_limit, set_limitPolicy, intoScalar,
      if_true, if_false, isNull_encI32, isNull_encStr, isNull_encBool, decStr_encStr,
      decI32_encI32, decBool_encBool, Bool.false_eq_true, MacLearningPolicy.zero,
      Option.map_some'] <;>
    simp_all

theorem isNull_encodeMacLearningPolicy (p : MacLearningPolicy) :
    (encodeMacLearningPolicy p).isNull = false := rfl

theorem isNull_encodeVlanSpec (v : VlanSpec) : (encodeVlanSpec v).isNull = false := rfl

theorem isNull_encodeMacManagementPolicy (p : MacManagementPolicy) :
    (encodeMacManagementPolicy p).isNull = false := rfl

theorem isNull_encodePortConfig (c : VSphereDistributedPortConfig) :
    (encodeVSphereDistributedPortConfig c).isNull = false := rfl

theorem roundtrip_MacManagementPolicy (p : MacManagementPolicy) :
    decodeMacManagementPolicy (encodeMacManagementPolicy p) = some p := by
  obtain ⟨a, m, f, l⟩ := p
  have hl : decodeMacLearningPolicyInto (encodeMacLearningPolicy l) MacLearningPolicy.zero =
      some l := roundtrip_MacLearningPolicy l
  cases a <;> cases m <;> cases f <;>
    simp only [encodeMacManagementPolicy, always, omitempty, emptyBool, emptyStruct,
      Bool.not_true, Bool.not_false, if_true, if_false, List.append_nil, List.nil_append,
      List.cons_append, Bool.false_eq_true] <;>
    simp only [decodeMacManagementPolicy, decodeMacManagementPolicyInto, intoStruct,
      applyMembers, set_allowPromiscuous, set_macChanges, set_forgedTransmits,
      set_macLearningPolicy, intoScalar, if_true, if_false, isNull_encBool, decBool_encBool,
      hl, Bool.false_eq_true, MacManagementPolicy.zero, Option.map_some']

theorem roundtrip_PortConfig (c : VSphereDistributedPortConfig) :
    decodeVSphereDistributedPortConfig (encodeVSphereDistributedPortConfig c) =
      some c.canon := by
  obtain ⟨v, m⟩ := c
  have hv : decodeVlanSpecInto (encodeVlanSpec v) VlanSpec.zero = some v.canon :=
    roundtrip_VlanSpec v
  have hm : decodeMacManagementPolicyInto (encodeMacManagementPolicy m)
      MacManagementPolicy.zero = some m := roundtrip_MacManagementPolicy m
  simp only [encodeVSphereDistributedPortConfig, omitempty, emptyStruct, if_false,
    List.append_nil, List.nil_append, List.cons_append, Bool.false_eq_true,
    decodeVSphereDistributedPortConfig, decodeVSphereDistributedPortConfigInto, intoStruct,
    applyMembers, set_vlan, set_macManagementPolicy, VSphereDistributedPortConfig.zero, hv, hm,
    Option.map_some', VSphereDistributedPortConfig.canon]

theorem roundtrip_Condition {T : Type} (cT : Codec T)
    (c : VSphereDistributedNetworkCondition T) (hT : cT.RoundTrips c.LastTransitionTime) :
    decodeVSphereDistributedNetworkCondition cT
      (encodeVSphereDistributedNetworkCondition cT c) = some c := by
  obtain ⟨t, s, r, m, l⟩ := c
  have hr := emptyStr_eq_true r
  have hm := emptyStr_eq_true m
  have hl : cT.dec (cT.enc l) cT.zero = some l := hT
  cases hr' : emptyStr r <;> cases hm' : emptyStr m <;>
    simp only [encodeVSphereDistributedNetworkCondition, always, omitempty, hr', hm',
      emptyStruct, if_true, if_false, List.append_nil, List.nil_append, List.cons_append,
      Bool.false_eq_true] <;>
    simp only [decodeVSphereDistributedNetworkCondition,
      decodeVSphereDistributedNetworkConditionInto, intoStruct, applyMembers, set_cond_type,
      set_cond_status, set_cond_reason, set_cond_message, set_cond_lastTransitionTime,
      intoScalar, if_true, if_false, isNull_encStr, decStr_encStr, hl, Bool.false_eq_true,
      VSphereDistributedNetworkCondition.zero, Option.map_some'] <;>
    simp_all

theorem intoSlice_null {α : Type} (into : JSON → α → Option α) (zero : α) (old : Slice α) :
    intoSlice into zero JSON.null old = some none := rfl

theorem roundtrip_Spec {P : Type} (cP : Codec P) (x : VSphereDistributedNetworkSpec P)
    (hP : ∀ p ∈ x.IPPools.elems, cP.RoundTrips p) :
    decodeVSphereDistributedNetworkSpec cP (encodeVSphereDistributedNetworkSpec cP x) =
      some x := by
  obtain ⟨g, m, p, w, k⟩ := x
  have hm := emptyStr_eq_true m
  have hl := intoSlice_arr cP.enc cP.dec cP.zero p.elems hP
  cases hm' : emptyStr m <;> rcases p with _ | p <;>
    simp only [encodeVSphereDistributedNetworkSpec, always, omitempty, hm', if_true, if_false,
      List.append_nil, List.nil_append, List.cons_append, Bool.false_eq_true] <;>
    simp only [Slice.elems] at hl <;>
    simp only [decodeVSphereDistributedNetworkSpec, decodeVSphereDistributedNetworkSpecInto,
      intoStruct, applyMembers, set_portGroupID, set_ipAssignmentMode, set_ipPools,
      set_gateway, set_subnetMask, intoScalar, if_true, if_false, isNull_encStr,
      decStr_encStr, encSlice, intoSlice_null, hl, Bool.false_eq_true,
      VSphereDistributedNetworkSpec.zero, Option.map_some'] <;>
    simp_all

theorem roundtrip_Status {T : Type} (cT : Codec T) (x : VSphereDistributedNetworkStatus T)
    (hT : ∀ c ∈ x.Conditions.elems, cT.RoundTrips c.LastTransitionTime) :
    decodeVSphereDistributedNetworkStatus cT (encodeVSphereDistributedNetworkStatus cT x) =
      some x.canon := by
  obtain ⟨c, d⟩ := x
  have hl := intoSlice_arr (encodeVSphereDistributedNetworkCondition cT)
    (decodeVSphereDistributedNetworkConditionInto cT)
    (VSphereDistributedNetworkCondition.zero cT) c.elems
    (fun a ha => roundtrip_Condition cT a (hT a ha))
  have hd : ∀ pc, decodeVSphereDistributedPortConfigInto
      (encodeVSphereDistributedPortConfig pc) VSphereDistributedPortConfig.zero =
        some pc.canon := roundtrip_PortConfig
  rcases c with _ | _ | ⟨a, l⟩ <;> rcases d with _ | d <;>
    simp only [encodeVSphereDistributedNetworkStatus, always, omitempty, emptySlice, Slice.len,
      emptyPtr, encPtr, Option.isNone_none, Option.isNone_some,
      List.length_nil, List.length_cons, beq_self_eq_true, if_true, if_false,
      List.append_nil, List.nil_append, List.cons_append, Bool.false_eq_true,
      Nat.add_one_ne_zero, beq_iff_eq, reduceCtorEq, beq_eq_false_iff_ne, ne_eq,
      not_false_eq_true] <;>
    simp only [Slice.elems] at hl <;>
    simp only [decodeVSphereDistributedNetworkStatus,
      decodeVSphereDistributedNetworkStatusInto, intoStruct, applyMembers, set_conditions,
      set_defaultPortConfig, intoPtr, if_true, if_false, isNull_encodePortConfig, encSlice,
      hl, hd, Option.getD_none, Option.map_some', Bool.false_eq_true,
      VSphereDistributedNetworkStatus.zero, VSphereDistributedNetworkStatus.canon,
      Slice.omitted, Slice.len, List.length_nil, List.length_cons, Nat.add_one_ne_zero,
      Option.map_none']

theorem roundtrip_Network {M T P : Type} (cM : Codec M) (cT : Codec T) (cP : Codec P)
    (x : VSphereDistributedNetwork M T P) (hM : cM.RoundTrips x.ObjectMeta)
    (hT : ∀ c ∈ x.Status.Conditions.elems, cT.RoundTrips c.LastTransitionTime)
    (hP : ∀ p ∈ x.Spec.IPPools.elems, cP.RoundTrips p) :
    decodeVSphereDistributedNetwork cM cT cP (encodeVSphereDistributedNetwork cM cT cP x) =
      some x.canon := by
  obtain ⟨⟨k, a⟩, m, s, t⟩ := x
  have hk := emptyStr_eq_true k
  have ha := emptyStr_eq_true a
  have hm : cM.dec (cM.enc m) cM.zero = some m := hM
  have hs : decodeVSphereDistributedNetworkSpecInto cP
      (encodeVSphereDistributedNetworkSpec cP s) VSphereDistributedNetworkSpec.zero = some s :=
    roundtrip_Spec cP s hP
  have ht : decodeVSphereDistributedNetworkStatusInto cT
      (encodeVSphereDistributedNetworkStatus cT t) VSphereDistributedNetworkStatus.zero =
        some t.canon := roundtrip_Status cT t hT
  cases hk' : emptyStr k <;> cases ha' : emptyStr a <;>
    simp only [encodeVSphereDistributedNetwork, always, omitempty, hk', ha', emptyStruct,
      if_true, if_false, List.append_nil, List.nil_append, List.cons_append,
      Bool.false_eq_true] <;>
    simp only [decodeVSphereDistributedNetwork, intoStruct, applyMembers, set_kind,
      set_apiVersion, set_metadata, set_spec, set_status, intoScalar, if_true, if_false,
      isNull_encStr, decStr_encStr, hm, hs, ht, Bool.false_eq_true,
      VSphereDistributedNetwork.zero, VSphereDistributedNetwork.canon, Option.map_some'] <;>
    simp_all

/-! ## Facts about the schema on marshalled values -/

theorem inRange_encI32 (lo hi : Int) (n : I32) :
    inRange lo hi (encI32 n) = decide (lo ≤ n.val ∧ n.val ≤ hi) := rfl

theorem inRange_num (lo hi n : Int) :
    inRange lo hi (JSON.num n) = decide (lo ≤ n ∧ n ≤ hi) := rfl

theorem inEnum_encStr (tokens : List String) (s : String) :
    inEnum tokens (encStr s) = decide (s ∈ tokens) := rfl

theorem isString_encStr (s : String) : isString (encStr s) = true := rfl

theorem isBoolean_bool (b : Bool) : isBoolean (JSON.bool b) = true := rfl

theorem isBoolean_encBool (b : Bool) : isBoolean (encBool b) = true := rfl

theorem isInt32_encI32 (n : I32) : isInt32 (encI32 n) = true := by
  obtain ⟨v, hv⟩ := n
  simp [isInt32, encI32, hv]

theorem isArrayOf_map {α : Type} (item : JSON → Bool) (enc : α → JSON) (xs : List α) :
    isArrayOf item (JSON.arr (xs.map enc)) = xs.all (fun x => item (enc x)) := by
  simp only [isArrayOf]
  induction xs with
  | nil => rfl
  | cons a as ih => simp only [List.map_cons, List.all_cons, ih]

theorem valid_VLANTrunkRange (r : VLANTrunkRange) :
    validVLANTrunkRange (encodeVLANTrunkRange r) = true ↔ r.InBounds := by
  obtain ⟨s, e⟩ := r
  simp only [encodeVLANTrunkRange, always, List.cons_append, List.nil_append,
    validVLANTrunkRange, required, JSON.field, JSON.lookup, String.reduceEq, if_true,
    if_false, isNull_encI32, Bool.false_eq_true, inRange_encI32, Bool.and_eq_true,
    decide_eq_true_eq, VLANTrunkRange.InBounds]

theorem valid_VlanSpec (v : VlanSpec) :
    validVlanSpec (encodeVlanSpec v) = true ↔
      v.Type_ ∈ vlanTypeEnum ∧ (0 ≤ v.VlanID.val ∧ v.VlanID.val ≤ 4094) ∧
        ∀ r ∈ v.TrunkRange.elems, r.InBounds := by
  obtain ⟨t, i, r, p⟩ := v
  have hi := emptyI32_eq_true i
  cases hi' : emptyI32 i <;> cases hp' : emptyI32 p <;> rcases r with _ | _ | ⟨a, l⟩ <;>
    simp only [encodeVlanSpec, always, omitempty, hi', hp', emptySlice, Slice.len,
      List.length_nil, List.length_cons, beq_self_eq_true, if_true, if_false,
      List.append_nil, List.nil_append, List.cons_append, Bool.false_eq_true,
      Nat.add_one_ne_zero, beq_iff_eq, reduceCtorEq, beq_eq_false_iff_ne, ne_eq,
      not_false_eq_true] <;>
    simp only [validVlanSpec, required, optional, defaulted, JSON.field, JSON.lookup,
      String.reduceEq, if_true, if_false, isNull_encI32, isNull_encStr, isNull_arr,
      Bool.false_eq_true, inRange_encI32, inEnum_encStr, isInt32_encI32, encSlice,
      isArrayOf_map, Bool.and_eq_true, decide_eq_true_eq, Bool.and_true, List.all_eq_true,
      valid_VLANTrunkRange, Slice.elems, inRange_num] <;>
    simp_all [I32.zero, and_assoc]

theorem valid_MacLearningPolicy (p : MacLearningPolicy) :
    validMacLearningPolicy (encodeMacLearningPolicy p) = true ↔
      (0 ≤ p.Limit.val ∧ p.Limit.val ≤ 4096) ∧
        (p.LimitPolicy = "" ∨ p.LimitPolicy ∈ macLimitPolicyEnum) := by
  obtain ⟨e, a, l, q⟩ := p
  have hl := emptyI32_eq_true l
  have hq := emptyStr_eq_true q
  cases a <;> cases hl' : emptyI32 l <;> cases hq' : emptyStr q <;>
    simp only [encodeMacLearningPolicy, always, omitempty, hl', hq', emptyBool, Bool.not_true,
      Bool.not_false, if_true, if_false, List.append_nil, List.nil_append, List.cons_append,
      Bool.false_eq_true] <;>
    simp only [validMacLearningPolicy, required, optional, defaulted, JSON.field, JSON.lookup,
      String.reduceEq, if_true, if_false, isNull_encI32, isNull_encStr, isNull_encBool,
      Bool.false_eq_true, inRange_encI32, inEnum_encStr, isBoolean_encBool, Bool.and_eq_true,
      decide_eq_true_eq, Bool.and_true, Bool.true_and, isBoolean_bool] <;>
    simp_all [I32.zero, and_assoc]

theorem valid_MacManagementPolicy (p : MacManagementPolicy) :
    validMacManagementPolicy (encodeMacManagementPolicy p) =
      validMacLearningPolicy (encodeMacLearningPolicy p.MacLearningPolicy) := by
  obtain ⟨a, m, f, l⟩ := p
  cases a <;> cases m <;> cases f <;>
    simp only [encodeMacManagementPolicy, always, omitempty, emptyBool, emptyStruct,
      Bool.not_true, Bool.not_false, if_true, if_false, List.append_nil, List.nil_append,
      List.cons_append, Bool.false_eq_true] <;>
    simp only [validMacManagementPolicy, optional, defaulted, JSON.field, JSON.lookup,
      String.reduceEq, if_true, if_false, isNull_encBool, isNull_encodeMacLearningPolicy,
      isBoolean_encBool, isBoolean_bool, Bool.false_eq_true, Bool.true_and]

theorem valid_PortConfig (c : VSphereDistributedPortConfig) :
    validVSphereDistributedPortConfig (encodeVSphereDistributedPortConfig c) =
      (validVlanSpec (encodeVlanSpec c.Vlan)
        && validMacLearningPolicy
            (encodeMacLearningPolicy c.MacManagementPolicy.MacLearningPolicy)) := by
  obtain ⟨v, m⟩ := c
  simp only [encodeVSphereDistributedPortConfig, omitempty, emptyStruct, if_false,
    List.append_nil, List.nil_append, List.cons_append, Bool.false_eq_true,
    validVSphereDistributedPortConfig, optional, JSON.field, JSON.lookup, String.reduceEq,
    if_true, isNull_encodeVlanSpec, isNull_encodeMacManagementPolicy,
    valid_MacManagementPolicy]

theorem valid_Condition {T : Type} (cT : Codec T) (c : VSphereDistributedNetworkCondition T) :
    validVSphereDistributedNetworkCondition cT (encodeVSphereDistributedNetworkCondition cT c) =
      ((cT.enc c.LastTransitionTime).isNull || cT.valid (cT.enc c.LastTransitionTime)) := by
  obtain ⟨t, s, r, m, l⟩ := c
  cases hn : (cT.enc l).isNull <;> cases hr' : emptyStr r <;> cases hm' : emptyStr m <;>
    simp only [encodeVSphereDistributedNetworkCondition, always, omitempty, hr', hm',
      emptyStruct, if_true, if_false, List.append_nil, List.nil_append, List.cons_append,
      Bool.false_eq_true] <;>
    simp only [validVSphereDistributedNetworkCondition, required, optional, JSON.field,
      JSON.lookup, String.reduceEq, if_true, if_false, isNull_encStr, isString_encStr, hn,
      Bool.false_eq_true, Bool.true_and, Bool.false_or, Bool.true_or, Bool.and_self]

theorem valid_Spec {P : Type} (cP : Codec P) (x : VSphereDistributedNetworkSpec P) :
    validVSphereDistributedNetworkSpec cP (encodeVSphereDistributedNetworkSpec cP x) = true ↔
      ∃ ps, x.IPPools = some ps ∧ ∀ p ∈ ps, cP.valid (cP.enc p) = true := by
  obtain ⟨g, m, p, w, k⟩ := x
  cases hm' : emptyStr m <;> rcases p with _ | p <;>
    simp only [encodeVSphereDistributedNetworkSpec, always, omitempty, hm', if_true, if_false,
      List.append_nil, List.nil_append, List.cons_append, Bool.false_eq_true] <;>
    simp only [validVSphereDistributedNetworkSpec, required, optional, JSON.field, JSON.lookup,
      String.reduceEq, if_true, if_false, isNull_encStr, isNull_arr, isNull_null,
      isString_encStr, encSlice, isArrayOf_map, Bool.false_eq_true, Bool.true_and,
      Bool.and_true, Bool.and_false, List.all_eq_true] <;>
    simp

theorem valid_Status {T : Type} (cT : Codec T) (x : VSphereDistributedNetworkStatus T) :
    validVSphereDistributedNetworkStatus cT (encodeVSphereDistributedNetworkStatus cT x) = true ↔
      (∀ c ∈ x.Conditions.elems,
          validVSphereDistributedNetworkCondition cT
            (encodeVSphereDistributedNetworkCondition cT c) = true) ∧
        (∀ pc, x.DefaultPortConfig = some pc →
          validVSphereDistributedPortConfig (encodeVSphereDistributedPortConfig pc) = true) := by
  obtain ⟨c, d⟩ := x
  rcases c with _ | _ | ⟨a, l⟩ <;> rcases d with _ | d <;>
    simp only [encodeVSphereDistributedNetworkStatus, always, omitempty, emptySlice, Slice.len,
      emptyPtr, encPtr, Option.isNone_none, Option.isNone_some,
      List.length_nil, List.length_cons, beq_self_eq_true, if_true, if_false,
      List.append_nil, List.nil_append, List.cons_append, Bool.false_eq_true,
      Nat.add_one_ne_zero, beq_iff_eq, reduceCtorEq, beq_eq_false_iff_ne, ne_eq,
      not_false_eq_true] <;>
    simp only [validVSphereDistributedNetworkStatus, optional, JSON.field, JSON.lookup,
      String.reduceEq, if_true, if_false, isNull_arr, isNull_encodePortConfig, encSlice,
      isArrayOf_map, Bool.false_eq_true, Bool.true_and, Bool.and_true, Bool.and_eq_true,
      List.all_eq_true, Slice.elems] <;>
    simp

/-! ## Key presence in marshalled structs -/

theorem has_VlanSpec (v : VlanSpec) :
    JSON.has "type" (encodeVlanSpec v) = true ∧
      JSON.has "vlanID" (encodeVlanSpec v) = !emptyI32 v.VlanID ∧
      JSON.has "trunkRange" (encodeVlanSpec v) = !emptySlice v.TrunkRange ∧
      JSON.has "privateVlanID" (encodeVlanSpec v) = !emptyI32 v.PrivateVlanID := by
  obtain ⟨t, i, r, p⟩ := v
  cases hi' : emptyI32 i <;> cases hp' : emptyI32 p <;> cases hr' : emptySlice r <;>
    simp only [encodeVlanSpec, always, omitempty, hi', hp', hr', if_true, if_false,
      List.append_nil, List.nil_append, List.cons_append, Bool.false_eq_true, JSON.has,
      JSON.get, JSON.lookup, String.reduceEq, Option.isSome_some, Option.isSome_none,
      Bool.not_true, Bool.not_false, and_self]

theorem has_MacLearningPolicy (p : MacLearningPolicy) :
    JSON.has "enabled" (encodeMacLearningPolicy p) = true ∧
      JSON.has "allowUnicastFlooding" (encodeMacLearningPolicy p) = p.AllowUnicastFlooding ∧
      JSON.has "limit" (encodeMacLearningPolicy p) = !emptyI32 p.Limit ∧
      JSON.has "limitPolicy" (encodeMacLearningPolicy p) = !emptyStr p.LimitPolicy := by
  obtain ⟨e, a, l, q⟩ := p
  cases a <;> cases hl' : emptyI32 l <;> cases hq' : emptyStr q <;>
    simp only [encodeMacLearningPolicy, always, omitempty, hl', hq', emptyBool, if_true,
      if_false, List.append_nil, List.nil_append, List.cons_append, Bool.false_eq_true,
      JSON.has, JSON.get, JSON.lookup, String.reduceEq, Option.isSome_some,
      Option.isSome_none, Bool.not_true, Bool.not_false, and_self]

theorem has_MacManagementPolicy (p : MacManagementPolicy) :
    JSON.has "allowPromiscuous" (encodeMacManagementPolicy p) = p.AllowPromiscuous ∧
      JSON.has "macLearningPolicy" (encodeMacManagementPolicy p) = true := by
  obtain ⟨a, m, f, l⟩ := p
  cases a <;> cases m <;> cases f <;>
    simp only [encodeMacManagementPolicy, always, omitempty, emptyBool, emptyStruct, if_true,
      if_false, List.append_nil, List.nil_append, List.cons_append, Bool.false_eq_true,
      JSON.has, JSON.get, JSON.lookup, String.reduceEq, Option.isSome_some,
      Option.isSome_none, Bool.not_true, Bool.not_false, and_self]

theorem has_PortConfig (c : VSphereDistributedPortConfig) :
    JSON.get "vlan" (encodeVSphereDistributedPortConfig c) = some (encodeVlanSpec c.Vlan) ∧
      JSON.get "macManagementPolicy" (encodeVSphereDistributedPortConfig c) =
        some (encodeMacManagementPolicy c.MacManagementPolicy) := by
  simp only [encodeVSphereDistributedPortConfig, omitempty, emptyStruct, if_false,
    List.append_nil, List.nil_append, List.cons_append, Bool.false_eq_true, JSON.get,
    JSON.lookup, String.reduceEq, if_true, and_self]

theorem has_Spec {P : Type} (cP : Codec P) (x : VSphereDistributedNetworkSpec P) :
    JSON.has "ipAssignmentMode" (encodeVSphereDistributedNetworkSpec cP x) =
      !emptyStr x.IPAssignmentMode := by
  obtain ⟨g, m, p, w, k⟩ := x
  cases hm' : emptyStr m <;>
    simp only [encodeVSphereDistributedNetworkSpec, always, omitempty, hm', if_true, if_false,
      List.append_nil, List.nil_append, List.cons_append, Bool.false_eq_true, JSON.has,
      JSON.get, JSON.lookup, String.reduceEq, Option.isSome_some, Option.isSome_none,
      Bool.not_true, Bool.not_false]

theorem get_type_VlanSpec (v : VlanSpec) :
    JSON.get "type" (encodeVlanSpec v) = some (JSON.str v.Type_) := by
  obtain ⟨t, i, r, p⟩ := v
  cases hi' : emptyI32 i <;> cases hp' : emptyI32 p <;> cases hr' : emptySlice r <;>
    simp only [encodeVlanSpec, always, omitempty, hi', hp', hr', if_true, if_false,
      List.append_nil, List.nil_append, List.cons_append, Bool.false_eq_true, JSON.get,
      JSON.lookup, String.reduceEq, encStr]

/-! ## The value a marshalled optional member carries -/

theorem get_VlanSpec (v : VlanSpec) :
    JSON.get "vlanID" (encodeVlanSpec v) =
        (if emptyI32 v.VlanID then none else some (JSON.num v.VlanID.val)) ∧
      JSON.get "privateVlanID" (encodeVlanSpec v) =
        (if emptyI32 v.PrivateVlanID then none else some (JSON.num v.PrivateVlanID.val)) := by
  obtain ⟨t, i, r, p⟩ := v
  cases hi' : emptyI32 i <;> cases hp' : emptyI32 p <;> cases hr' : emptySlice r <;>
    simp only [encodeVlanSpec, always, omitempty, hi', hp', hr', if_true, if_false,
      List.append_nil, List.nil_append, List.cons_append, Bool.false_eq_true, JSON.get,
      JSON.lookup, String.reduceEq, encI32, and_self]

theorem get_MacLearningPolicy (p : MacLearningPolicy) :
    JSON.get "limit" (encodeMacLearningPolicy p) =
        (if emptyI32 p.Limit then none else some (JSON.num p.Limit.val)) ∧
      JSON.get "allowUnicastFlooding" (encodeMacLearningPolicy p) =
        (if p.AllowUnicastFlooding then some (JSON.bool true) else none) := by
  obtain ⟨e, a, l, q⟩ := p
  cases a <;> cases hl' : emptyI32 l <;> cases hq' : emptyStr q <;>
    simp only [encodeMacLearningPolicy, always, omitempty, hl', hq', emptyBool, if_true,
      if_false, List.append_nil, List.nil_append, List.cons_append, Bool.false_eq_true,
      JSON.get, JSON.lookup, String.reduceEq, encI32, encBool, Bool.not_true, Bool.not_false,
      and_self]

theorem get_MacManagementPolicy (p : MacManagementPolicy) :
    JSON.get "allowPromiscuous" (encodeMacManagementPolicy p) =
      (if p.AllowPromiscuous then some (JSON.bool true) else none) := by
  obtain ⟨a, m, f, l⟩ := p
  cases a <;> cases m <;> cases f <;>
    simp only [encodeMacManagementPolicy, always, omitempty, emptyBool, emptyStruct, if_true,
      if_false, List.append_nil, List.nil_append, List.cons_append, Bool.false_eq_true,
      JSON.get, JSON.lookup, String.reduceEq, encBool, Bool.not_true, Bool.not_false]

theorem get_Spec {P : Type} (cP : Codec P) (x : VSphereDistributedNetworkSpec P) :
    JSON.get "ipAssignmentMode" (encodeVSphereDistributedNetworkSpec cP x) =
      (if emptyStr x.IPAssignmentMode then none else some (JSON.str x.IPAssignmentMode)) := by
  obtain ⟨g, m, p, w, k⟩ := x
  cases hm' : emptyStr m <;>
    simp only [encodeVSphereDistributedNetworkSpec, always, omitempty, hm', if_true, if_false,
      List.append_nil, List.nil_append, List.cons_append, Bool.false_eq_true, JSON.get,
      JSON.lookup, String.reduceEq, encStr]

/-! ## A member carrying the zero value of its field -/

/-- A member that stores nothing new can be dropped from an object: if the
members before it keep the property `ok` of the struct, and storing the member
into a struct with that property changes nothing, then the object with and
without the member unmarshal alike. -/
theorem applyMembers_skip {σ : Type} (set : String → JSON → σ → Option σ) (ok : σ → Prop)
    (sel : String → Prop) (k0 : String) (z : JSON)
    (hkeep : ∀ k j s s', ¬ sel k → set k j s = some s' → ok s → ok s')
    (hzero : ∀ s, ok s → set k0 z s = some s) (before after : List (String × JSON))
    (hsel : ∀ m ∈ before, ¬ sel m.1) (s : σ) (hs : ok s) :
    applyMembers set (before ++ (k0, z) :: after) s = applyMembers set (before ++ after) s := by
  induction before generalizing s with
  | nil => simp only [List.nil_append, applyMembers, hzero s hs]
  | cons m rest ih =>
    obtain ⟨k, j⟩ := m
    have hk : ¬ sel k := hsel (k, j) (List.mem_cons_self _ _)
    have hrest : ∀ m ∈ rest, ¬ sel m.1 := fun m hm => hsel m (List.mem_cons_of_mem _ hm)
    simp only [List.cons_append, applyMembers]
    cases h : set k j s with
    | none => rfl
    | some s' => exact ih hrest s' (hkeep k j s s' hk h hs)

theorem keep_vlanID (k : String) (j : JSON) (v v' : VlanSpec)
    (hk : ¬ fieldFor vlanSpecFields k = some "vlanID") (h : setVlanSpecField k j v = some v')
    (hv : v.VlanID = I32.zero) : v'.VlanID = I32.zero := by
  unfold setVlanSpecField at h
  simp only [hk, if_false] at h
  split_ifs at h <;> simp only [Option.map_eq_some', Option.some.injEq] at h
  · obtain ⟨_, _, rfl⟩ := h
    exact hv
  · obtain ⟨_, _, rfl⟩ := h
    exact hv
  · obtain ⟨_, _, rfl⟩ := h
    exact hv
  · subst h
    exact hv

theorem keep_privateVlanID (k : String) (j : JSON) (v v' : VlanSpec)
    (hk : ¬ fieldFor vlanSpecFields k = some "privateVlanID")
    (h : setVlanSpecField k j v = some v') (hv : v.PrivateVlanID = I32.zero) :
    v'.PrivateVlanID = I32.zero := by
  unfold setVlanSpecField at h
  simp only [hk, if_false] at h
  split_ifs at h <;> simp only [Option.map_eq_some', Option.some.injEq] at h <;>
    (obtain ⟨_, _, rfl⟩ := h; exact hv)

theorem keep_limit (k : String) (j : JSON) (p p' : MacLearningPolicy)
    (hk : ¬ fieldFor macLearningPolicyFields k = some "limit")
    (h : setMacLearningPolicyField k j p = some p') (hv : p.Limit = I32.zero) :
    p'.Limit = I32.zero := by
  unfold setMacLearningPolicyField at h
  simp only [hk, if_false] at h
  split_ifs at h <;> simp only [Option.map_eq_some', Option.some.injEq] at h <;>
    (obtain ⟨_, _, rfl⟩ := h; exact hv)

theorem keep_allowUnicastFlooding (k : String) (j : JSON) (p p' : MacLearningPolicy)
    (hk : ¬ fieldFor macLearningPolicyFields k = some "allowUnicastFlooding")
    (h : setMacLearningPolicyField k j p = some p') (hv : p.AllowUnicastFlooding = false) :
    p'.AllowUnicastFlooding = false := by
  unfold setMacLearningPolicyField at h
  simp only [hk, if_false] at h
  split_ifs at h <;> simp only [Option.map_eq_some', Option.some.injEq] at h <;>
    (obtain ⟨_, _, rfl⟩ := h; exact hv)

theorem keep_allowPromiscuous (k : String) (j : JSON) (p p' : MacManagementPolicy)
    (hk : ¬ fieldFor macManagementPolicyFields k = some "allowPromiscuous")
    (h : setMacManagementPolicyField k j p = some p') (hv : p.AllowPromiscuous = false) :
    p'.AllowPromiscuous = false := by
  unfold setMacManagementPolicyField at h
  simp only [hk, if_false] at h
  split_ifs at h <;> simp only [Option.map_eq_some', Option.some.injEq] at h <;>
    (obtain ⟨_, _, rfl⟩ := h; exact hv)

theorem keep_ipAssignmentMode {P : Type} (cP : Codec P) (k : String) (j : JSON)
    (x x' : VSphereDistributedNetworkSpec P)
    (hk : ¬ fieldFor specFields k = some "ipAssignmentMode")
    (h : setSpecField cP k j x = some x') (hv : x.IPAssignmentMode = "") :
    x'.IPAssignmentMode = "" := by
  unfold setSpecField at h
  simp only [hk, if_false] at h
  split_ifs at h <;> simp only [Option.map_eq_some', Option.some.injEq] at h <;>
    (obtain ⟨_, _, rfl⟩ := h; exact hv)

theorem zero_vlanID (v : VlanSpec) (hv : v.VlanID = I32.zero) :
    setVlanSpecField "vlanID" (JSON.num 0) v = some v := by
  obtain ⟨t, i, r, p⟩ := v
  subst hv
  rfl

theorem zero_privateVlanID (v : VlanSpec) (hv : v.PrivateVlanID = I32.zero) :
    setVlanSpecField "privateVlanID" (JSON.num 0) v = some v := by
  obtain ⟨t, i, r, p⟩ := v
  subst hv
  rfl

theorem zero_limit (p : MacLearningPolicy) (hv : p.Limit = I32.zero) :
    setMacLearningPolicyField "limit" (JSON.num 0) p = some p := by
  obtain ⟨e, a, l, q⟩ := p
  subst hv
  rfl

theorem zero_allowUnicastFlooding (p : MacLearningPolicy)
    (hv : p.AllowUnicastFlooding = false) :
    setMacLearningPolicyField "allowUnicastFlooding" (JSON.bool false) p = some p := by
  obtain ⟨e, a, l, q⟩ := p
  subst hv
  rfl

theorem zero_allowPromiscuous (p : MacManagementPolicy) (hv : p.AllowPromiscuous = false) :
    setMacManagementPolicyField "allowPromiscuous" (JSON.bool false) p = some p := by
  obtain ⟨a, m, f, l⟩ := p
  subst hv
  rfl

theorem zero_ipAssignmentMode {P : Type} (cP : Codec P) (x : VSphereDistributedNetworkSpec P)
    (hv : x.IPAssignmentMode = "") :
    setSpecField cP "ipAssignmentMode" (JSON.str "") x = some x := by
  obtain ⟨g, m, p, w, k⟩ := x
  subst hv
  rfl

/-! ## The stand-in codecs -/

theorem ipPoolReferenceCodec_roundTrips (r : IPPoolReference) :
    ipPoolReferenceCodec.RoundTrips r := by
  obtain ⟨n⟩ := r
  rfl

theorem timeCodec_roundTrips (t : Time) : timeCodec.RoundTrips t ↔ t.nsec = 0 := by
  obtain ⟨s, n⟩ := t
  unfold Codec.RoundTrips Codec.decode timeCodec
  by_cases hs : s = 0 <;> by_cases hn : n = 0 <;>
    simp [hs, hn, Time.zero, eq_comm]

theorem valid_timeCodec (t : Time) :
    ((timeCodec.enc t).isNull || timeCodec.valid (timeCodec.enc t)) = true := by
  obtain ⟨s, n⟩ := t
  unfold timeCodec
  by_cases h : s = 0 ∧ n = 0
  · simp [h, JSON.isNull]
  · simp [h, JSON.isNull]

/-! ## The claims -/

/-- C1, as stated, fails: a condition whose last transition fell at 42.5 s is
written in whole seconds, so the resource that comes back holds 42 s; the
value had no empty slice, so the omit-if-empty rules do not account for the
difference. -/
theorem subsecond_timestamp_not_restored :
    subSecondNetwork.canon = subSecondNetwork ∧
      decodeVSphereDistributedNetwork metaCodec timeCodec ipPoolReferenceCodec
          (encodeVSphereDistributedNetwork metaCodec timeCodec ipPoolReferenceCodec
            subSecondNetwork) = some sampleNetwork ∧
      sampleNetwork ≠ subSecondNetwork := by
  refine ⟨by decide, ?_, by decide⟩
  have e : encodeVSphereDistributedNetwork metaCodec timeCodec ipPoolReferenceCodec
      subSecondNetwork =
        encodeVSphereDistributedNetwork metaCodec timeCodec ipPoolReferenceCodec
          sampleNetwork := rfl
  rw [e]
  have h := roundtrip_Network metaCodec timeCodec ipPoolReferenceCodec sampleNetwork rfl
    (fun c hc => by
      simp only [sampleNetwork, Slice.elems, List.mem_singleton] at hc
      subst hc
      rfl)
    (fun p _ => ipPoolReferenceCodec_roundTrips p)
  rw [h]
  decide

/-- C1, amended.  For every `VSphereDistributedNetwork` value `x` whose
metadata, condition timestamps and IP-pool references are each preserved by
their own wire form, unmarshalling the marshalled `x` succeeds and yields `x`
up to the omit-if-empty rules: the result is `x.canon`, which differs from `x`
only in that an allocated empty `conditions` or `trunkRange` slice has become
the nil slice, and is `x` itself when neither slice is allocated-empty.  A
timestamp is preserved by its wire form exactly when it has no sub-second
part. -/
theorem network_roundtrip {M T P : Type} (cM : Codec M) (cT : Codec T) (cP : Codec P)
    (x : VSphereDistributedNetwork M T P) (hM : cM.RoundTrips x.ObjectMeta)
    (hT : ∀ c ∈ x.Status.Conditions.elems, cT.RoundTrips c.LastTransitionTime)
    (hP : ∀ p ∈ x.Spec.IPPools.elems, cP.RoundTrips p) :
    decodeVSphereDistributedNetwork cM cT cP (encodeVSphereDistributedNetwork cM cT cP x) =
        some x.canon ∧
      (x.Status.Conditions ≠ some [] →
        (∀ c, x.Status.DefaultPortConfig = some c → c.Vlan.TrunkRange ≠ some []) →
        x.canon = x) ∧
      (∀ t : Time, timeCodec.RoundTrips t ↔ t.nsec = 0) := by
  refine ⟨roundtrip_Network cM cT cP x hM hT hP, ?_, timeCodec_roundTrips⟩
  intro hc hd
  obtain ⟨tm, m, s, ⟨c, d⟩⟩ := x
  have e1 : Slice.omitted c = c := by
    rcases c with _ | _ | ⟨a, l⟩
    · rfl
    · exact absurd rfl hc
    · simp [Slice.omitted, Slice.len]
  have e2 : d.map VSphereDistributedPortConfig.canon = d := by
    rcases d with _ | ⟨⟨t, i, r, p⟩, mm⟩
    · rfl
    · have hr := hd _ rfl
      rcases r with _ | _ | ⟨a, l⟩
      · rfl
      · exact absurd rfl hr
      · simp [VSphereDistributedPortConfig.canon, VlanSpec.canon, Slice.omitted, Slice.len]
  simp only [VSphereDistributedNetwork.canon, VSphereDistributedNetworkStatus.canon, e1, e2]

/-- Witness for the amended C1: the sample resource, whose timestamps fall on
whole seconds, comes back unchanged. -/
theorem network_roundtrip_witness :
    decodeVSphereDistributedNetwork metaCodec timeCodec ipPoolReferenceCodec
        (encodeVSphereDistributedNetwork metaCodec timeCodec ipPoolReferenceCodec
          sampleNetwork) = some sampleNetwork := by
  have h := network_roundtrip metaCodec timeCodec ipPoolReferenceCodec sampleNetwork rfl
    (fun c hc => by
      simp only [sampleNetwork, Slice.elems, List.mem_singleton] at hc
      subst hc
      rfl)
    (fun p _ => ipPoolReferenceCodec_roundTrips p)
  rw [h.1, h.2.1 (by decide) (by decide)]

/-- C2, as stated, fails: the declared constraints accept the DHCP spec with
a gateway set, which the claim says is rejected. -/
theorem mode_coherence_not_declared :
    dhcpWithGateway.IPAssignmentMode = IPAssignmentModeDHCP ∧
      dhcpWithGateway.Gateway ≠ "" ∧
      validVSphereDistributedNetworkSpec ipPoolReferenceCodec
        (encodeVSphereDistributedNetworkSpec ipPoolReferenceCodec dhcpWithGateway) = true := by
  refine ⟨rfl, by decide, ?_⟩
  rw [valid_Spec]
  exact ⟨[], rfl, by simp⟩

/-- C2, amended.  The declared constraints on a `VSphereDistributedNetworkSpec`
are the required members and their types only: a marshalled spec is accepted
exactly when `IPPools` is an allocated slice whose references are accepted.
Acceptance does not depend on `IPAssignmentMode`, `Gateway` or `SubnetMask`,
nor on any relation between them and `IPPools`. -/
theorem spec_admission {P : Type} (cP : Codec P) (x : VSphereDistributedNetworkSpec P) :
    (validVSphereDistributedNetworkSpec cP (encodeVSphereDistributedNetworkSpec cP x) = true ↔
        ∃ ps, x.IPPools = some ps ∧ ∀ p ∈ ps, cP.valid (cP.enc p) = true) ∧
      ∀ (mode : IPAssignmentModeType) (gateway subnetMask : String),
        validVSphereDistributedNetworkSpec cP (encodeVSphereDistributedNetworkSpec cP
            { x with IPAssignmentMode := mode, Gateway := gateway, SubnetMask := subnetMask }) =
          validVSphereDistributedNetworkSpec cP (encodeVSphereDistributedNetworkSpec cP x) := by
  refine ⟨valid_Spec cP x, ?_⟩
  intro mode gateway subnetMask
  rw [Bool.eq_iff_iff, valid_Spec, valid_Spec]

/-- C3 (range closure).  A marshalled `VLANTrunkRange` is accepted exactly when
`0 ≤ start ≤ 4094` and `0 ≤ end ≤ 4094`, each endpoint on its own; a marshalled
`VlanSpec` is accepted exactly when its type is enumerated, `0 ≤ vlanID ≤ 4094`
and every trunk range is in bounds; a marshalled `MacLearningPolicy` is
accepted exactly when `0 ≤ limit ≤ 4096` and its limit policy is unset or
enumerated.  Overlapping and reversed ranges are accepted; `{start: 0, end:
4095}` is rejected. -/
theorem range_closure :
    (∀ r : VLANTrunkRange,
        validVLANTrunkRange (encodeVLANTrunkRange r) = true ↔
          (0 ≤ r.Start.val ∧ r.Start.val ≤ 4094) ∧ (0 ≤ r.End.val ∧ r.End.val ≤ 4094)) ∧
      (∀ v : VlanSpec,
        validVlanSpec (encodeVlanSpec v) = true ↔
          v.Type_ ∈ vlanTypeEnum ∧ (0 ≤ v.VlanID.val ∧ v.VlanID.val ≤ 4094) ∧
            ∀ r ∈ v.TrunkRange.elems, r.InBounds) ∧
      (∀ p : MacLearningPolicy,
        validMacLearningPolicy (encodeMacLearningPolicy p) = true ↔
          (0 ≤ p.Limit.val ∧ p.Limit.val ≤ 4096) ∧
            (p.LimitPolicy = "" ∨ p.LimitPolicy ∈ macLimitPolicyEnum)) ∧
      validVlanSpec (encodeVlanSpec trunkOverlap) = true ∧
      validVLANTrunkRange
        (encodeVLANTrunkRange ⟨i32 200 (by decide), i32 100 (by decide)⟩) = true ∧
      validVLANTrunkRange
        (encodeVLANTrunkRange ⟨i32 0 (by decide), i32 4095 (by decide)⟩) = false := by
  refine ⟨valid_VLANTrunkRange, valid_VlanSpec, valid_MacLearningPolicy, ?_, ?_, ?_⟩
  · rw [valid_VlanSpec]
    decide
  · rw [valid_VLANTrunkRange]
    decide
  · rw [Bool.eq_false_iff, Ne, valid_VLANTrunkRange]
    decide

/-- C4, as stated, fails: no enumeration is declared for `ipAssignmentMode` or
for the condition type, so a spec whose mode is `bogus` and a status whose
condition type is `Bogus` are accepted. -/
theorem undeclared_enums_accept_any_token :
    unknownModeSpec.IPAssignmentMode ∉
        [IPAssignmentModeDHCP, IPAssignmentModeStaticPool, IPAssignmentModeNone] ∧
      validVSphereDistributedNetworkSpec ipPoolReferenceCodec
        (encodeVSphereDistributedNetworkSpec ipPoolReferenceCodec unknownModeSpec) = true ∧
      validVSphereDistributedNetworkCondition timeCodec
        (encodeVSphereDistributedNetworkCondition timeCodec
          ⟨"Bogus", "True", "", "", Time.zero⟩) = true := by
  refine ⟨by decide, ?_, ?_⟩
  · rw [valid_Spec]
    exact ⟨[], rfl, by simp⟩
  · rw [valid_Condition]
    rfl

/-- C4, amended.  The two enumerations the schema declares are enforced:
a `VlanSpec` is accepted only if its type is `standard`, `trunk` or `private`,
and a `MacLearningPolicy` only if its limit policy is unset or `allow` or
`drop`; on the wire, an object whose `type` (respectively `limitPolicy`) member
is a string outside the set is rejected.  No enumeration is declared for
`ipAssignmentMode` or the condition type: whether a spec (respectively a
condition) is accepted does not depend on the token it carries there, and for
every token there is an accepted spec and an accepted condition carrying it. -/
theorem declared_enums_enforced :
    (∀ v : VlanSpec, v.Type_ ∉ vlanTypeEnum → validVlanSpec (encodeVlanSpec v) = false) ∧
      (∀ p : MacLearningPolicy, p.LimitPolicy ≠ "" → p.LimitPolicy ∉ macLimitPolicyEnum →
        validMacLearningPolicy (encodeMacLearningPolicy p) = false) ∧
      (∀ (kvs : List (String × JSON)) (t : String),
        JSON.lookup "type" kvs = some (JSON.str t) → t ∉ vlanTypeEnum →
        validVlanSpec (JSON.obj kvs) = false) ∧
      (∀ (kvs : List (String × JSON)) (t : String),
        JSON.lookup "limitPolicy" kvs = some (JSON.str t) → t ∉ macLimitPolicyEnum →
        validMacLearningPolicy (JSON.obj kvs) = false) ∧
      (∀ (P : Type) (cP : Codec P) (x : VSphereDistributedNetworkSpec P) (t : String),
        validVSphereDistributedNetworkSpec cP (encodeVSphereDistributedNetworkSpec cP
            { x with IPAssignmentMode := t }) =
          validVSphereDistributedNetworkSpec cP (encodeVSphereDistributedNetworkSpec cP x)) ∧
      (∀ (T : Type) (cT : Codec T) (c : VSphereDistributedNetworkCondition T) (t : String),
        validVSphereDistributedNetworkCondition cT
            (encodeVSphereDistributedNetworkCondition cT { c with Type_ := t }) =
          validVSphereDistributedNetworkCondition cT
            (encodeVSphereDistributedNetworkCondition cT c)) ∧
      (∀ t : String,
        validVSphereDistributedNetworkSpec ipPoolReferenceCodec
          (encodeVSphereDistributedNetworkSpec ipPoolReferenceCodec
            { unknownModeSpec with IPAssignmentMode := t }) = true) ∧
      (∀ t : String,
        validVSphereDistributedNetworkCondition timeCodec
          (encodeVSphereDistributedNetworkCondition timeCodec
            ⟨t, "True", "", "", Time.zero⟩) = true) := by
  refine ⟨?_, ?_, ?_, ?_, ?_, ?_, ?_, ?_⟩
  · intro v hv
    rw [Bool.eq_false_iff, Ne, valid_VlanSpec]
    exact fun h => hv h.1
  · intro p hne hp
    rw [Bool.eq_false_iff, Ne, valid_MacLearningPolicy]
    rintro ⟨_, h | h⟩
    · exact hne h
    · exact hp h
  · intro kvs t hk ht
    simp [validVlanSpec, required, JSON.field, hk, JSON.isNull, inEnum, ht]
  · intro kvs t hk ht
    simp [validMacLearningPolicy, optional, JSON.field, hk, JSON.isNull, inEnum, ht]
  · intro P cP x t
    rw [Bool.eq_iff_iff, valid_Spec, valid_Spec]
  · intro T cT c t
    rw [valid_Condition, valid_Condition]
  · intro t
    rw [valid_Spec]
    exact ⟨[], rfl, by simp⟩
  · intro t
    rw [valid_Condition]
    rfl

/-- Witness for the amended C4: a `VlanSpec` of type `bogus` is rejected. -/
theorem declared_enums_enforced_witness :
    validVlanSpec (encodeVlanSpec ⟨"bogus", I32.zero, none, I32.zero⟩) = false :=
  declared_enums_enforced.1 ⟨"bogus", I32.zero, none, I32.zero⟩ (by decide)

/-- C5, as stated, fails: the schema admits a status holding two conditions of
the same type. -/
theorem duplicate_condition_types_admitted :
    (duplicateConditions.Conditions.elems.map (fun c => c.Type_)).Nodup = False ∧
      validVSphereDistributedNetworkStatus timeCodec
        (encodeVSphereDistributedNetworkStatus timeCodec duplicateConditions) = true := by
  refine ⟨by simp [duplicateConditions, Slice.elems], ?_⟩
  rw [valid_Status]
  refine ⟨?_, ?_⟩
  · intro c _
    rw [valid_Condition]
    exact valid_timeCodec c.LastTransitionTime
  · intro pc h
    simp [duplicateConditions] at h

/-- C5, amended.  The schema declares no uniqueness constraint on
`status.conditions`: a marshalled status is admitted exactly when each
condition is admitted on its own and the default port configuration, when
present, is admitted.  How many entries share a type plays no part. -/
theorem status_admission {T : Type} (cT : Codec T) (x : VSphereDistributedNetworkStatus T) :
    validVSphereDistributedNetworkStatus cT (encodeVSphereDistributedNetworkStatus cT x) = true ↔
      (∀ c ∈ x.Conditions.elems,
          validVSphereDistributedNetworkCondition cT
            (encodeVSphereDistributedNetworkCondition cT c) = true) ∧
        (∀ pc, x.DefaultPortConfig = some pc →
          validVSphereDistributedPortConfig (encodeVSphereDistributedPortConfig pc) = true) :=
  valid_Status cT x

/-- C6, as stated, fails: the wire form carrying `vlanID` with the value `0`
and the wire form missing `vlanID` unmarshal to the same `VlanSpec`, and
marshalling that value gives a form without the key, so the form carrying the
zero is not restored. -/
theorem zero_and_missing_not_distinguished :
    JSON.has "vlanID" wireVlanIDZero = true ∧
      JSON.has "vlanID" wireVlanIDMissing = false ∧
      decodeVlanSpec wireVlanIDZero = some standardNoVlan ∧
      decodeVlanSpec wireVlanIDMissing = some standardNoVlan ∧
      JSON.has "vlanID" (encodeVlanSpec standardNoVlan) = false := by
  refine ⟨by decide, by decide, by decide, by decide, by decide⟩

/-- C6, amended.  The optional omit-if-empty fields are plain values, so only
two states exist.  For `vlanID`, `privateVlanID`, `limit`,
`allowUnicastFlooding`, `allowPromiscuous` and `ipAssignmentMode`: a member
carrying the zero value, with no earlier member for the same field, can be
removed from a wire form without changing the unmarshalled value; marshalling
omits the member when the field is zero and otherwise emits it carrying the
value of the field; and unmarshalling the marshalled struct gives the struct
back, so a non-zero value is preserved. -/
theorem optional_zero_same_as_missing :
    (∀ before after, (∀ m ∈ before, ¬ fieldFor vlanSpecFields m.1 = some "vlanID") →
        decodeVlanSpec (JSON.obj (before ++ ("vlanID", JSON.num 0) :: after)) =
          decodeVlanSpec (JSON.obj (before ++ after))) ∧
      (∀ before after, (∀ m ∈ before, ¬ fieldFor vlanSpecFields m.1 = some "privateVlanID") →
        decodeVlanSpec (JSON.obj (before ++ ("privateVlanID", JSON.num 0) :: after)) =
          decodeVlanSpec (JSON.obj (before ++ after))) ∧
      (∀ before after, (∀ m ∈ before, ¬ fieldFor macLearningPolicyFields m.1 = some "limit") →
        decodeMacLearningPolicy (JSON.obj (before ++ ("limit", JSON.num 0) :: after)) =
          decodeMacLearningPolicy (JSON.obj (before ++ after))) ∧
      (∀ before after,
        (∀ m ∈ before,
          ¬ fieldFor macLearningPolicyFields m.1 = some "allowUnicastFlooding") →
        decodeMacLearningPolicy
            (JSON.obj (before ++ ("allowUnicastFlooding", JSON.bool false) :: after)) =
          decodeMacLearningPolicy (JSON.obj (before ++ after))) ∧
      (∀ before after,
        (∀ m ∈ before, ¬ fieldFor macManagementPolicyFields m.1 = some "allowPromiscuous") →
        decodeMacManagementPolicy
            (JSON.obj (before ++ ("allowPromiscuous", JSON.bool false) :: after)) =
          decodeMacManagementPolicy (JSON.obj (before ++ after))) ∧
      (∀ (P : Type) (cP : Codec P) before after,
        (∀ m ∈ before, ¬ fieldFor specFields m.1 = some "ipAssignmentMode") →
        decodeVSphereDistributedNetworkSpec cP
            (JSON.obj (before ++ ("ipAssignmentMode", JSON.str "") :: after)) =
          decodeVSphereDistributedNetworkSpec cP (JSON.obj (before ++ after))) ∧
      (∀ v : VlanSpec,
        JSON.get "vlanID" (encodeVlanSpec v) =
            (if v.VlanID = I32.zero then none else some (JSON.num v.VlanID.val)) ∧
          JSON.get "privateVlanID" (encodeVlanSpec v) =
            (if v.PrivateVlanID = I32.zero then none
              else some (JSON.num v.PrivateVlanID.val)) ∧
          decodeVlanSpec (encodeVlanSpec v) = some v.canon ∧
          v.canon.VlanID = v.VlanID ∧ v.canon.PrivateVlanID = v.PrivateVlanID) ∧
      (∀ p : MacLearningPolicy,
        JSON.get "limit" (encodeMacLearningPolicy p) =
            (if p.Limit = I32.zero then none else some (JSON.num p.Limit.val)) ∧
          JSON.get "allowUnicastFlooding" (encodeMacLearningPolicy p) =
            (if p.AllowUnicastFlooding = false then none else some (JSON.bool true)) ∧
          decodeMacLearningPolicy (encodeMacLearningPolicy p) = some p) ∧
      (∀ p : MacManagementPolicy,
        JSON.get "allowPromiscuous" (encodeMacManagementPolicy p) =
            (if p.AllowPromiscuous = false then none else some (JSON.bool true)) ∧
          decodeMacManagementPolicy (encodeMacManagementPolicy p) = some p) ∧
      (∀ (P : Type) (cP : Codec P) (x : VSphereDistributedNetworkSpec P),
        JSON.get "ipAssignmentMode" (encodeVSphereDistributedNetworkSpec cP x) =
            (if x.IPAssignmentMode = "" then none else some (JSON.str x.IPAssignmentMode)) ∧
          ((∀ p ∈ x.IPPools.elems, cP.RoundTrips p) →
            decodeVSphereDistributedNetworkSpec cP
              (encodeVSphereDistributedNetworkSpec cP x) = some x)) := by
  refine ⟨?_, ?_, ?_, ?_, ?_, ?_, ?_, ?_, ?_, ?_⟩
  · intro before after h
    exact applyMembers_skip setVlanSpecField (fun v => v.VlanID = I32.zero)
      (fun k => fieldFor vlanSpecFields k = some "vlanID") "vlanID" (JSON.num 0)
      keep_vlanID zero_vlanID before after h VlanSpec.zero rfl
  · intro before after h
    exact applyMembers_skip setVlanSpecField (fun v => v.PrivateVlanID = I32.zero)
      (fun k => fieldFor vlanSpecFields k = some "privateVlanID") "privateVlanID" (JSON.num 0)
      keep_privateVlanID zero_privateVlanID before after h VlanSpec.zero rfl
  · intro before after h
    exact applyMembers_skip setMacLearningPolicyField (fun p => p.Limit = I32.zero)
      (fun k => fieldFor macLearningPolicyFields k = some "limit") "limit" (JSON.num 0)
      keep_limit zero_limit before after h MacLearningPolicy.zero rfl
  · intro before after h
    exact applyMembers_skip setMacLearningPolicyField (fun p => p.AllowUnicastFlooding = false)
      (fun k => fieldFor macLearningPolicyFields k = some "allowUnicastFlooding")
      "allowUnicastFlooding" (JSON.bool false) keep_allowUnicastFlooding
      zero_allowUnicastFlooding before after h MacLearningPolicy.zero rfl
  · intro before after h
    exact applyMembers_skip setMacManagementPolicyField (fun p => p.AllowPromiscuous = false)
      (fun k => fieldFor macManagementPolicyFields k = some "allowPromiscuous")
      "allowPromiscuous" (JSON.bool false) keep_allowPromiscuous zero_allowPromiscuous
      before after h MacManagementPolicy.zero rfl
  · intro P cP before after h
    exact applyMembers_skip (setSpecField cP) (fun x => x.IPAssignmentMode = "")
      (fun k => fieldFor specFields k = some "ipAssignmentMode") "ipAssignmentMode"
      (JSON.str "") (keep_ipAssignmentMode cP) (zero_ipAssignmentMode cP) before after h
      VSphereDistributedNetworkSpec.zero rfl
  · intro v
    obtain ⟨h1, h2⟩ := get_VlanSpec v
    have e1 := emptyI32_eq_true v.VlanID
    have e2 := emptyI32_eq_true v.PrivateVlanID
    refine ⟨?_, ?_, roundtrip_VlanSpec v, rfl, rfl⟩
    · rw [h1]
      cases h : emptyI32 v.VlanID <;> simp_all
    · rw [h2]
      cases h : emptyI32 v.PrivateVlanID <;> simp_all
  · intro p
    obtain ⟨h1, h2⟩ := get_MacLearningPolicy p
    have e1 := emptyI32_eq_true p.Limit
    refine ⟨?_, ?_, roundtrip_MacLearningPolicy p⟩
    · rw [h1]
      cases h : emptyI32 p.Limit <;> simp_all
    · rw [h2]
      cases p.AllowUnicastFlooding <;> rfl
  · intro p
    refine ⟨?_, roundtrip_MacManagementPolicy p⟩
    rw [get_MacManagementPolicy]
    cases p.AllowPromiscuous <;> rfl
  · intro P cP x
    have e := emptyStr_eq_true x.IPAssignmentMode
    refine ⟨?_, roundtrip_Spec cP x⟩
    rw [get_Spec]
    cases h : emptyStr x.IPAssignmentMode <;> simp_all

/-- Witness for the amended C6: `{type: standard, vlanID: 0}` unmarshals like
`{type: standard}`. -/
theorem optional_zero_same_as_missing_witness :
    decodeVlanSpec (JSON.obj [("type", JSON.str "standard"), ("vlanID", JSON.num 0)]) =
      decodeVlanSpec (JSON.obj [("type", JSON.str "standard")]) :=
  optional_zero_same_as_missing.1 [("type", JSON.str "standard")] []
    (by
      intro m hm
      simp only [List.mem_singleton] at hm
      subst hm
      decide)

/-- C7 fails on the code: `omitempty` has no effect on a struct-typed field,
so a `MacManagementPolicy` whose `MacLearningPolicy` is all zero is marshalled
with a `macLearningPolicy` member, and a `VSphereDistributedPortConfig` with
`Vlan` and `MacManagementPolicy` unset is marshalled with `vlan` and
`macManagementPolicy` members. -/
theorem unset_struct_members_still_emitted :
    JSON.has "macLearningPolicy" (encodeMacManagementPolicy MacManagementPolicy.zero) = true ∧
      JSON.has "vlan"
        (encodeVSphereDistributedPortConfig VSphereDistributedPortConfig.zero) = true ∧
      JSON.has "macManagementPolicy"
        (encodeVSphereDistributedPortConfig VSphereDistributedPortConfig.zero) = true ∧
      encodeMacManagementPolicy MacManagementPolicy.zero =
        JSON.obj [("macLearningPolicy", JSON.obj [("enabled", JSON.bool false)])] ∧
      encodeVSphereDistributedPortConfig VSphereDistributedPortConfig.zero =
        JSON.obj [("vlan", JSON.obj [("type", JSON.str "")]),
          ("macManagementPolicy",
            JSON.obj [("macLearningPolicy", JSON.obj [("enabled", JSON.bool false)])])] := by
  refine ⟨by decide, by decide, by decide, rfl, rfl⟩

/-- C8, as stated, fails: a `VlanSpec` of type `standard` whose `vlanID` is set
to `0` is marshalled without the key `vlanID`. -/
theorem vlanID_zero_not_emitted :
    standardNoVlan.Type_ = VLANTypeStandard ∧ standardNoVlan.VlanID = I32.zero ∧
      JSON.has "vlanID" (encodeVlanSpec standardNoVlan) = false := by
  refine ⟨rfl, rfl, by decide⟩

/-- C8, amended.  For every `VlanSpec` the marshalled form always has the key
`type`; has the key `vlanID` exactly when `vlanID` is not `0`; has the key
`trunkRange` exactly when the range slice is not empty; and has the key
`privateVlanID` exactly when it is not `0`. -/
theorem vlanSpec_emission (v : VlanSpec) :
    JSON.has "type" (encodeVlanSpec v) = true ∧
      (JSON.has "vlanID" (encodeVlanSpec v) = true ↔ v.VlanID.val ≠ 0) ∧
      (JSON.has "trunkRange" (encodeVlanSpec v) = true ↔ v.TrunkRange.len ≠ 0) ∧
      (JSON.has "privateVlanID" (encodeVlanSpec v) = true ↔ v.PrivateVlanID.val ≠ 0) := by
  obtain ⟨h0, h1, h2, h3⟩ := has_VlanSpec v
  rw [h0, h1, h2, h3]
  simp [emptyI32, emptySlice]

/-- C9 (registration).  After `init`, the registry knows a type exactly when it
knew it before or it is `VSphereDistributedNetwork` or
`VSphereDistributedNetworkList` of group/version `v1alpha1`; in particular both
are known, and starting from the empty registry exactly these two are. -/
theorem init_registers (s : Scheme) :
    (∀ version kind,
        (init s).knows version kind = true ↔
          s.knows version kind = true ∨
            (version = "v1alpha1" ∧
              (kind = "VSphereDistributedNetwork" ∨ kind = "VSphereDistributedNetworkList"))) ∧
      (init s).knows "v1alpha1" "VSphereDistributedNetwork" = true ∧
      (init s).knows "v1alpha1" "VSphereDistributedNetworkList" = true ∧
      init [] = [("v1alpha1", "VSphereDistributedNetwork"),
        ("v1alpha1", "VSphereDistributedNetworkList")] := by
  have key : ∀ version kind,
      (init s).knows version kind = true ↔
        s.knows version kind = true ∨
          (version = "v1alpha1" ∧
            (kind = "VSphereDistributedNetwork" ∨ kind = "VSphereDistributedNetworkList")) := by
    intro version kind
    simp only [init, RegisterTypeWithScheme, Scheme.knows, GroupVersion, decide_eq_true_eq,
      List.mem_append, List.map_cons, List.map_nil, List.mem_cons, Prod.mk.injEq,
      List.mem_nil_iff, or_false]
    constructor
    · rintro (h | ⟨h1, h2⟩ | ⟨h1, h2⟩)
      · exact Or.inl h
      · exact Or.inr ⟨h1, Or.inl h2⟩
      · exact Or.inr ⟨h1, Or.inr h2⟩
    · rintro (h | ⟨h1, h2 | h2⟩)
      · exact Or.inl h
      · exact Or.inr (Or.inl ⟨h1, h2⟩)
      · exact Or.inr (Or.inr ⟨h1, h2⟩)
  refine ⟨key, ?_, ?_, rfl⟩
  · exact (key _ _).2 (Or.inr ⟨rfl, Or.inl rfl⟩)
  · exact (key _ _).2 (Or.inr ⟨rfl, Or.inr rfl⟩)

/-- C10.  A marshalled `VSphereDistributedPortConfig` always carries a `vlan`
object, and that object always carries `type` holding `Vlan.Type`.  Hence a
status whose `DefaultPortConfig` is present is admitted only if `Vlan.Type` is
`standard`, `trunk` or `private`, and a status whose port configuration has
`Vlan` unset (type `""`) is rejected by the schema, whatever its MAC management
policy. -/
theorem unset_vlan_fails_type_enum :
    (∀ pc : VSphereDistributedPortConfig,
        JSON.get "vlan" (encodeVSphereDistributedPortConfig pc) =
          some (encodeVlanSpec pc.Vlan)) ∧
      (∀ v : VlanSpec, JSON.get "type" (encodeVlanSpec v) = some (JSON.str v.Type_)) ∧
      (∀ (T : Type) (cT : Codec T) (s : VSphereDistributedNetworkStatus T)
          (pc : VSphereDistributedPortConfig),
        s.DefaultPortConfig = some pc →
        validVSphereDistributedNetworkStatus cT
            (encodeVSphereDistributedNetworkStatus cT s) = true →
        pc.Vlan.Type_ ∈ vlanTypeEnum) ∧
      (∀ (T : Type) (cT : Codec T) (s : VSphereDistributedNetworkStatus T)
          (m : MacManagementPolicy),
        s.DefaultPortConfig = some ⟨VlanSpec.zero, m⟩ →
        validVSphereDistributedNetworkStatus cT
            (encodeVSphereDistributedNetworkStatus cT s) = false) := by
  have key : ∀ (T : Type) (cT : Codec T) (s : VSphereDistributedNetworkStatus T)
      (pc : VSphereDistributedPortConfig), s.DefaultPortConfig = some pc →
      validVSphereDistributedNetworkStatus cT
          (encodeVSphereDistributedNetworkStatus cT s) = true →
      pc.Vlan.Type_ ∈ vlanTypeEnum := by
    intro T cT s pc hpc hv
    rw [valid_Status] at hv
    have h := hv.2 pc hpc
    rw [valid_PortConfig, Bool.and_eq_true, valid_VlanSpec] at h
    exact h.1.1
  refine ⟨fun pc => (has_PortConfig pc).1, get_type_VlanSpec, key, ?_⟩
  intro T cT s m hs
  rw [Bool.eq_false_iff]
  intro hv
  have h := key T cT s _ hs hv
  simp [VlanSpec.zero, vlanTypeEnum] at h

/-- Witness for C10: a status whose port configuration holds only the MAC
management policy is rejected. -/
theorem unset_vlan_fails_type_enum_witness :
    validVSphereDistributedNetworkStatus timeCodec
        (encodeVSphereDistributedNetworkStatus timeCodec
          ⟨none, some macOnlyPortConfig⟩) = false :=
  unset_vlan_fails_type_enum.2.2.2 Time timeCodec ⟨none, some macOnlyPortConfig⟩
    macOnlyPortConfig.MacManagementPolicy rfl

end NetOperator
